import Mathlib

/-!
# ParticleSimulationScene: host-side orchestration of the position-based-fluids pipeline

A shallow embedding of `src/ParticleSimulationScene.cpp`.

The host code only *issues* work: it sets kernel arguments, enqueues commands on one
in-order command queue, uploads host arrays and asks the renderer to draw.  The embedding
therefore keeps the host-visible members of the scene, the argument table of every kernel
object and the list of commands enqueued so far.  The OpenCL kernels themselves
(`counting_sort.cl`, `timestep.cl`, `clip_to_bounds.cl`) and the headers are not part of the
translated file.

A float is represented by a rational number: the host code only stores and passes floats
on, it never computes with them, apart from the constant `1.f / 60` of `reset`, which is
kept as the exact fraction.
-/

namespace pbf

/-! ## Plain data -/

/-- Four floats (`cl_float4`, `glm::vec4`). -/
structure Float4 where
  x : ℚ
  y : ℚ
  z : ℚ
  w : ℚ
deriving DecidableEq

/-- Four unsigned integers (`cl_uint4`). -/
structure UInt4 where
  x : Nat
  y : Nat
  z : Nat
  w : Nat
deriving DecidableEq

/-- The value-initialised `glm::vec4`. -/
def Float4.zero : Float4 := ⟨0, 0, 0, 0⟩

/-- Simulation domain box, `pbf::Bounds`. -/
structure Bounds where
  halfDimensions : Float4
  dimensions : Float4
deriving DecidableEq

/-- Uniform grid description, `pbf::Grid`. -/
structure Grid where
  halfDimensions : Float4
  binSize : ℚ
  binCount3D : UInt4
  binCount : Nat
deriving DecidableEq

/-- Unsigned 32-bit subtraction, as in `1 - mCurrentBufferID` on `unsigned int`. -/
def usub32 (a b : Nat) : Nat := (a % 4294967296 + 4294967296 - b % 4294967296) % 4294967296

/-- Value of `sizeof(cl_uint)`, `sizeof(GLuint)` and `sizeof(float)`. -/
def sizeofUInt : Nat := 4

/-! ## Host vectors -/

/-- A `std::vector<α>`: its size and the element stored at each index.  Only the indices
below `size` denote storage that belongs to the vector. -/
structure Vec (α : Type) where
  size : Nat
  data : Nat → α

namespace Vec

/-- The vector `std::vector<α> v(n)` of `n` value-initialised elements. -/
def filled {α : Type} (n : Nat) (a : α) : Vec α := ⟨n, fun _ => a⟩

/-- Element access `v[i]`. -/
def get {α : Type} (v : Vec α) (i : Nat) : α := v.data i

/-- The vector after the assignment `v[i] = a`. -/
def set {α : Type} (v : Vec α) (i : Nat) (a : α) : Vec α :=
  ⟨v.size, fun j => if j = i then a else v.data j⟩

end Vec

/-! ## Device objects, kernels and commands -/

/-- Device memory objects owned by the scene.  The first six are created from OpenGL
buffers (`cl::BufferGL`), the last three are plain `cl::Buffer`s of the grid. -/
inductive MemObject where
  | mPositionsCL (i : Nat)
  | mVelocitiesCL (i : Nat)
  | mDensitiesCL
  | mParticleBinIDCL
  | mBinCountCL
  | mBinStartIDCL
  | mParticleInBinPosCL
deriving DecidableEq

/-- The five kernel objects of the scene, named after their entry points. -/
inductive Kernel where
  | timestep
  | insert_particles
  | compute_bin_start_ID
  | reindex_particles
  | clip_to_bounds
deriving DecidableEq

/-- A value bound to a kernel argument by `setArg`. -/
inductive KernelArg where
  | mem (m : MemObject)
  | scalar (v : ℚ)
  | bounds (b : Bounds)
deriving DecidableEq

/-- Number of arguments of each entry point: one more than the largest index the host ever
passes to `setArg` for that kernel. -/
def Kernel.arity : Kernel → Nat
  | .timestep => 3
  | .insert_particles => 4
  | .compute_bin_start_ID => 2
  | .reindex_particles => 7
  | .clip_to_bounds => 3

/-- What the host hands to the command queue `mQueue`, plus the one blocking host call
`event.wait()`.  A kernel launch carries the argument values bound at enqueue time and the
two-dimensional global range. -/
inductive Command where
  | enqueueAcquireGLObjects (objs : List MemObject)
  | enqueueNDRangeKernel (k : Kernel) (args : List (Option KernelArg)) (global : Nat × Nat)
  | enqueueFillBuffer (buf : MemObject) (pattern : Nat) (offset : Nat) (size : Nat)
  | enqueueReleaseGLObjects (objs : List MemObject)
  | eventWait
deriving DecidableEq

/-- Contents handed to an OpenGL buffer by `bufferData`. -/
inductive Upload where
  | vec4s (v : Vec Float4)
  | floats (v : Vec ℚ)
  | uninitialised

/-- An OpenGL vertex buffer after `bufferData(bytes, data)`. -/
structure GLBuffer where
  bytes : Nat
  contents : Upload

/-- The OpenGL vertex buffers of the scene. -/
inductive GLBufferName where
  | mPositionsGL (i : Nat)
  | mVelocitiesGL (i : Nat)
  | mDensitiesGL
  | mParticleBinIDGL
deriving DecidableEq

/-! ## The scene -/

/-- Host-visible state of a `ParticleSimulationScene`. -/
structure Scene where
  mNumParticles : Nat
  mDeltaTime : ℚ
  mCurrentBufferID : Nat
  mNumSolverIterations : Nat
  mBoundsCL : Bounds
  mGridCL : Grid
  mMemObjects : List MemObject
  /-- Argument table of every kernel object: the value last bound by `setArg`. -/
  kernelArgs : Kernel → Nat → Option KernelArg
  /-- Contents of the OpenGL vertex buffers, `none` before the first `bufferData`. -/
  glBuffers : GLBufferName → Option GLBuffer
  /-- Byte sizes of the device buffers created so far. -/
  clBufferBytes : MemObject → Option Nat
  /-- Everything enqueued on `mQueue` so far, oldest first. -/
  queue : List Command

namespace Scene

/-- Binding an argument: `kernel->setArg(index, value)`. -/
def setArg (s : Scene) (k : Kernel) (index : Nat) (a : KernelArg) : Scene :=
  { s with kernelArgs := fun k2 i => if k2 = k ∧ i = index then some a else s.kernelArgs k2 i }

/-- The arguments a launch of `k` would capture now. -/
def boundArgs (s : Scene) (k : Kernel) : List (Option KernelArg) :=
  (List.range k.arity).map (s.kernelArgs k)

/-- Appending a command to `mQueue`. -/
def enqueue (s : Scene) (c : Command) : Scene :=
  { s with queue := s.queue ++ [c] }

/-- The call `mQueue.enqueueNDRangeKernel(*k, NullRange, NDRange(n, 1), NullRange)`. -/
def enqueueNDRangeKernel (s : Scene) (k : Kernel) (n : Nat) : Scene :=
  s.enqueue (.enqueueNDRangeKernel k (s.boundArgs k) (n, 1))

end Scene

/-! ## `update` (source lines 381-460)

Every device call is taken to report `CL_SUCCESS`, so the wrappers `OCL_CALL` around them
have nothing to report. -/

/-- One pass through the body of the solver loop (lines 441-445). -/
def clipIteration (s : Scene) : Scene :=
  let s := s.setArg .clip_to_bounds 0 (.mem (.mPositionsCL s.mCurrentBufferID))
  let s := s.setArg .clip_to_bounds 1 (.mem (.mVelocitiesCL s.mCurrentBufferID))
  s.enqueueNDRangeKernel .clip_to_bounds s.mNumParticles

/-- The loop `for (unsigned int i = 0; i < mNumSolverIterations; ++i)`, given the number
of passes still to run. -/
def solverLoop : Nat → Scene → Scene
  | 0, s => s
  | n + 1, s => solverLoop n (clipIteration s)

/-- The member function `ParticleSimulationScene::update()`. -/
def update (s0 : Scene) : Scene :=
  let previousBufferID : Nat := 0
  let s := { s0 with mCurrentBufferID := usub32 1 s0.mCurrentBufferID }
  let s := s.enqueue (.enqueueAcquireGLObjects s.mMemObjects)
  -- apply external forces and predict positions
  let s := s.setArg .timestep 0 (.mem (.mPositionsCL previousBufferID))
  let s := s.setArg .timestep 1 (.mem (.mVelocitiesCL previousBufferID))
  let s := s.setArg .timestep 2 (.scalar s.mDeltaTime)
  let s := s.enqueueNDRangeKernel .timestep s.mNumParticles
  -- counting sort
  let s := s.enqueue (.enqueueFillBuffer .mBinCountCL 0 0 (sizeofUInt * s.mGridCL.binCount))
  let s := s.setArg .insert_particles 0 (.mem (.mPositionsCL previousBufferID))
  let s := s.enqueueNDRangeKernel .insert_particles s.mNumParticles
  let s := s.enqueueNDRangeKernel .compute_bin_start_ID s.mGridCL.binCount
  let s := s.setArg .reindex_particles 3 (.mem (.mPositionsCL previousBufferID))
  let s := s.setArg .reindex_particles 4 (.mem (.mVelocitiesCL previousBufferID))
  let s := s.setArg .reindex_particles 5 (.mem (.mPositionsCL s.mCurrentBufferID))
  let s := s.setArg .reindex_particles 6 (.mem (.mVelocitiesCL s.mCurrentBufferID))
  let s := s.enqueueNDRangeKernel .reindex_particles s.mNumParticles
  -- apply position corrections
  let s := solverLoop s.mNumSolverIterations s
  let s := s.enqueue (.enqueueReleaseGLObjects s.mMemObjects)
  s.enqueue .eventWait

/-- The commands one call of `update` adds to the queue. -/
def frameCommands (s : Scene) : List Command :=
  (update s).queue.drop s.queue.length

/-- Coarse classification of a command: which operation it is, ignoring its operands. -/
inductive CommandKind where
  | acquire
  | launch (k : Kernel)
  | fill (buf : MemObject) (pattern : Nat)
  | release
  | hostWait
deriving DecidableEq

/-- The kind of a command. -/
def Command.kind : Command → CommandKind
  | .enqueueAcquireGLObjects _ => .acquire
  | .enqueueNDRangeKernel k _ _ => .launch k
  | .enqueueFillBuffer buf pattern _ _ => .fill buf pattern
  | .enqueueReleaseGLObjects _ => .release
  | .eventWait => .hostWait

/-- Whether the command goes to the device queue (everything but the host-side wait). -/
def Command.isDeviceCommand : Command → Bool
  | .eventWait => false
  | _ => true

/-! ## `initializeParticleStates`, `reset` and `render` -/

/-- The member function `initializeParticleStates(positions, velocities, densities)`
(lines 252-316).  Buffer creation is taken to succeed; camera and light set-up is left
out. -/
def initializeParticleStates (s : Scene) (positions : Vec Float4) (velocities : Vec Float4)
    (densities : Vec ℚ) : Scene :=
  let MAX_PARTICLES : Nat := positions.size
  let vec4Bytes : Nat := 4 * sizeofUInt * MAX_PARTICLES
  let scalarBytes : Nat := sizeofUInt * MAX_PARTICLES
  let gl : GLBufferName → Option GLBuffer := fun b =>
    match b with
    | .mPositionsGL 0 => some ⟨vec4Bytes, .vec4s positions⟩
    | .mVelocitiesGL 0 => some ⟨vec4Bytes, .vec4s velocities⟩
    | .mPositionsGL 1 => some ⟨vec4Bytes, .vec4s positions⟩
    | .mVelocitiesGL 1 => some ⟨vec4Bytes, .vec4s velocities⟩
    | .mDensitiesGL => some ⟨scalarBytes, .floats densities⟩
    | .mParticleBinIDGL => some ⟨scalarBytes, .uninitialised⟩
    | other => s.glBuffers other
  let cl : MemObject → Option Nat := fun m =>
    match m with
    | .mPositionsCL 0 => some vec4Bytes
    | .mPositionsCL 1 => some vec4Bytes
    | .mVelocitiesCL 0 => some vec4Bytes
    | .mVelocitiesCL 1 => some vec4Bytes
    | .mDensitiesCL => some scalarBytes
    | .mParticleBinIDCL => some scalarBytes
    | .mBinCountCL => some (sizeofUInt * s.mGridCL.binCount)
    | .mBinStartIDCL => some (sizeofUInt * s.mGridCL.binCount)
    | .mParticleInBinPosCL => some (sizeofUInt * MAX_PARTICLES)
    | other => s.clBufferBytes other
  let s := { s with
    glBuffers := gl
    clBufferBytes := cl
    mMemObjects := s.mMemObjects ++
      [MemObject.mPositionsCL 0, MemObject.mPositionsCL 1, MemObject.mVelocitiesCL 0,
       MemObject.mVelocitiesCL 1, MemObject.mDensitiesCL, MemObject.mParticleBinIDCL] }
  -- arguments that do not flip their buffers
  let s := s.setArg .insert_particles 1 (.mem .mParticleBinIDCL)
  let s := s.setArg .insert_particles 2 (.mem .mParticleInBinPosCL)
  let s := s.setArg .insert_particles 3 (.mem .mBinCountCL)
  let s := s.setArg .compute_bin_start_ID 0 (.mem .mBinCountCL)
  let s := s.setArg .compute_bin_start_ID 1 (.mem .mBinStartIDCL)
  let s := s.setArg .reindex_particles 0 (.mem .mParticleBinIDCL)
  let s := s.setArg .reindex_particles 1 (.mem .mParticleInBinPosCL)
  s.setArg .reindex_particles 2 (.mem .mBinStartIDCL)

/-- The member function `reset()` (lines 318-350).  `velocity i` is the vector the loop
stores in `velocities[i]`, computed in the source from two arrays of random angles. -/
def reset (s : Scene) (velocity : Nat → Float4) : Scene :=
  let MAX_PARTICLES : Nat := 1000
  let s := { s with
    mNumParticles := 1000
    mDeltaTime := 1 / 60
    mCurrentBufferID := 0
    mNumSolverIterations := 1 }
  let positions : Vec Float4 := Vec.filled MAX_PARTICLES Float4.zero
  let velocities : Vec Float4 :=
    ⟨MAX_PARTICLES, fun i => if i < MAX_PARTICLES then velocity i else Float4.zero⟩
  let densities : Vec ℚ := Vec.filled MAX_PARTICLES 0
  initializeParticleStates s positions velocities densities

/-- The vertex buffers attached to the vertex array `mParticles[slot]` by the constructor
(lines 76-92). -/
def vertexArrayBuffers (slot : Nat) : List GLBufferName :=
  [.mPositionsGL slot, .mVelocitiesGL slot, .mDensitiesGL, .mParticleBinIDGL]

/-- The OpenGL buffer a device object was created from (lines 283-297), if any. -/
def sharedGLBuffer : MemObject → Option GLBufferName
  | .mPositionsCL i => some (.mPositionsGL i)
  | .mVelocitiesCL i => some (.mVelocitiesGL i)
  | .mDensitiesCL => some .mDensitiesGL
  | .mParticleBinIDCL => some .mParticleBinIDGL
  | _ => none

/-- What `render()` asks OpenGL to draw as particles: the vertex array it binds and the
range passed to `glDrawArrays(GL_POINTS, first, count)`. -/
structure DrawCall where
  vertexArray : Nat
  first : Nat
  count : Nat
deriving DecidableEq

/-- The particle draw of the member function `render()` (lines 481-486). -/
def render (s : Scene) : DrawCall :=
  { vertexArray := 0, first := 0, count := s.mNumParticles }

/-! ## `loadFluidSetup` (lines 227-250)

The text file is read with `std::ifstream` and `operator>>`.  The library is modelled at
the level of whitespace-separated tokens:

* extraction from a stream that is not `good()` sets `failbit` and stores nothing;
* extraction that meets the end of the file while skipping whitespace sets `eofbit` and
  `failbit` and stores nothing;
* extraction of a number whose last character is the last character of the file stores the
  number and sets `eofbit`;
* extraction that meets text which cannot begin a number stores zero and sets `failbit`;
* extraction of a numeric literal outside the range of `float` consumes the literal, stores
  the value the library substitutes for it, and sets `failbit` (and `eofbit` if the literal
  ends the file);
* an unsigned value that does not fit 32 bits stores the largest value and sets `failbit`.
-/

/-- A token of the body of the file. -/
inductive Token where
  /-- A numeric literal within the range of `float`; `v` is the float it converts to. -/
  | num (v : ℚ)
  /-- Text whose first character cannot begin a number. -/
  | text
  /-- A numeric literal whose magnitude is outside the range of `float`, such as `1e40`;
  `stored` is the value the library stores in its place. -/
  | outOfRange (stored : ℚ)
deriving DecidableEq

/-- Contents of an initial-state file, by what its first token is. -/
inductive SetupText where
  /-- No token at all: the file is empty or holds only whitespace. -/
  | blank
  /-- The first token is the unsigned decimal integer `n`; `body` are the tokens after it,
  and `trailingSpace` tells whether whitespace (such as a final newline) follows the last
  token of the file. -/
  | counted (n : Nat) (body : List Token) (trailingSpace : Bool)
  /-- The first token is text that cannot begin a number. -/
  | uncounted

/-- State of the `std::ifstream` once the count has been extracted. -/
structure IFStream where
  tokens : List Token
  trailingSpace : Bool
  eofbit : Bool
  failbit : Bool
deriving DecidableEq

/-- The statement `ifs >> mNumParticles` on a freshly opened file: the new value of
`mNumParticles` and the stream afterwards. -/
def readCount (text : SetupText) (mNumParticles : Nat) : Nat × IFStream :=
  match text with
  | .blank => (mNumParticles, ⟨[], false, true, true⟩)
  | .counted n body trailingSpace =>
    (if n < 4294967296 then n else 4294967295,
     ⟨body, trailingSpace, body.isEmpty && !trailingSpace, decide (4294967296 ≤ n)⟩)
  | .uncounted => (0, ⟨[.text], false, false, true⟩)

/-- The extraction `ifs >> f` of one float: the stream afterwards and the value stored in
`f`, if any. -/
def readFloat (st : IFStream) : IFStream × Option ℚ :=
  if st.eofbit || st.failbit then ({ st with failbit := true }, none)
  else
    match st.tokens with
    | [] => ({ st with eofbit := true, failbit := true }, none)
    | .num v :: rest =>
      ({ st with tokens := rest, eofbit := rest.isEmpty && !st.trailingSpace }, some v)
    | .text :: _ => ({ st with failbit := true }, some 0)
    | .outOfRange stored :: rest =>
      ({ st with tokens := rest, eofbit := rest.isEmpty && !st.trailingSpace,
                 failbit := true }, some stored)

/-- Why a run of `loadFluidSetup` did not reach its end. -/
inductive LoadFault where
  /-- The `while (!ifs.eof())` loop is still running when the step budget is used up. -/
  | running
  /-- A store to `positions[id]` with `id` not below the size of the vector. -/
  | outOfBounds (id : Nat)
  /-- The operand `positions[id]` was formed with `id` not below the size of the vector,
  although the extraction then stored nothing. -/
  | indexPastEnd (id : Nat)
deriving DecidableEq

/-- One statement `ifs >> positions[id].c`, where `store` writes component `c`.  The
operand `positions[id]` is formed on every execution, whether or not the extraction stores a
value. -/
def readComponent (store : Float4 → ℚ → Float4) (id : Nat) (st : IFStream)
    (positions : Vec Float4) : Except LoadFault (IFStream × Vec Float4) :=
  match readFloat st with
  | (st, none) =>
    if id < positions.size then .ok (st, positions) else .error (.indexPastEnd id)
  | (st, some v) =>
    if id < positions.size then .ok (st, positions.set id (store (positions.get id) v))
    else .error (.outOfBounds id)

/-- The body of the `for` loop: the three extractions for particle `id`. -/
def readParticle (id : Nat) (st : IFStream) (positions : Vec Float4) :
    Except LoadFault (IFStream × Vec Float4) := do
  let (st, positions) ← readComponent (fun p v => { p with x := v }) id st positions
  let (st, positions) ← readComponent (fun p v => { p with y := v }) id st positions
  readComponent (fun p v => { p with z := v }) id st positions

/-- The loop `for (id = 0; id < mNumParticles; ++id)` from the point where `todo` passes
remain, the next one for particle `id`. -/
def forLoop : (todo : Nat) → (id : Nat) → IFStream → Vec Float4 →
    Except LoadFault (IFStream × Vec Float4)
  | 0, _, st, positions => .ok (st, positions)
  | todo + 1, id, st, positions => do
    let (st, positions) ← readParticle id st positions
    forLoop todo (id + 1) st positions

/-- The loop `while (!ifs.eof())`, allowed at most `fuel` passes. -/
def whileLoop (mNumParticles : Nat) : (fuel : Nat) → IFStream → Vec Float4 →
    Except LoadFault (IFStream × Vec Float4)
  | fuel, st, positions =>
    if st.eofbit then .ok (st, positions)
    else
      match fuel with
      | 0 => .error .running
      | fuel + 1 => do
        let (st, positions) ← forLoop mNumParticles 0 st positions
        whileLoop mNumParticles fuel st positions

/-- The constant `MAX_PARTICLES` of `loadFluidSetup`. -/
def MAX_PARTICLES : Nat := 10000

/-- The member function `loadFluidSetup(path)`.  `file` is `none` when the file cannot be
opened; `fuel` bounds the number of passes of the `while` loop. -/
def loadFluidSetup (s : Scene) (file : Option SetupText) (fuel : Nat) :
    Except LoadFault Scene :=
  let positions : Vec Float4 := Vec.filled MAX_PARTICLES Float4.zero
  let velocities : Vec Float4 := Vec.filled MAX_PARTICLES Float4.zero
  let densities : Vec ℚ := Vec.filled MAX_PARTICLES 0
  match file with
  | none => .ok (initializeParticleStates s positions velocities densities)
  | some text =>
    let (n, st) := readCount text s.mNumParticles
    let s := { s with mNumParticles := n }
    match whileLoop n fuel st positions with
    | .ok (_, positions) => .ok (initializeParticleStates s positions velocities densities)
    | .error e => .error e

/-! ## The constructor (lines 17-143)

Shader, camera, mesh, light and vertex-array set-up do not touch the simulation members and
are left out.  What the OpenCL platform answers is an input (`Platform`).  The wrappers
`OCL_CHECK` and `OCL_CALL` come from a header that is not among the translated files: they
evaluate the wrapped expression and then inspect the error code; whether they stop the
program on a given code is an input as well (`ErrorWrappers`). -/

/-- The OpenCL status `CL_SUCCESS`. -/
def CL_SUCCESS : Int := 0

/-- The OpenCL status `CL_BUILD_PROGRAM_FAILURE`. -/
def CL_BUILD_PROGRAM_FAILURE : Int := -11

/-- The three compute programs. -/
inductive Program where
  | mCountingSortProgram
  | mTimestepProgram
  | mClipToBoundsProgram
deriving DecidableEq

/-- The kernels the constructor creates from each program, in order. -/
def Program.kernels : Program → List Kernel
  | .mCountingSortProgram => [.insert_particles, .compute_bin_start_ID, .reindex_particles]
  | .mTimestepProgram => [.timestep]
  | .mClipToBoundsProgram => [.clip_to_bounds]

/-- Answers of the file system and of the OpenCL platform during construction. -/
structure Platform where
  /-- Result of `TryReadFromFile` for the source of each program. -/
  readsFile : Program → Bool
  /-- Status reported by building each program. -/
  buildStatus : Program → Int
  /-- Status reported by creating each kernel. -/
  kernelStatus : Kernel → Int
  /-- Status reported by the final `setArg` on the clip kernel. -/
  setArgStatus : Int

/-- Behaviour of the error-checking wrappers: whether each stops the program when it
finds the given status. -/
structure ErrorWrappers where
  checkStops : Int → Bool
  callStops : Int → Bool

/-- Members the constructor leaves unassigned, with the values they happen to hold. -/
structure Unassigned where
  mNumParticles : Nat
  mDeltaTime : ℚ
  mCurrentBufferID : Nat
  mNumSolverIterations : Nat

/-- Observable steps of the kernel set-up part of the constructor. -/
inductive CtorStep where
  | buildProgram (p : Program)
  | printBuildLog (p : Program)
  | createKernel (p : Program) (k : Kernel)
  | setArg (k : Kernel) (index : Nat)
deriving DecidableEq

/-- How construction ends. -/
inductive CtorEnd where
  /-- The constructor returned; the scene is as given. -/
  | completed (s : Scene)
  /-- An error wrapper stopped the program. -/
  | stopped
  /-- Line 142 dereferenced `mClipToBoundsKernel` although no kernel object was made. -/
  | nullKernel

/-- A run of the constructor: its observable steps and how it ended. -/
structure Construction where
  steps : List CtorStep
  outcome : CtorEnd

/-- Progress of a run of the constructor. -/
structure Building where
  steps : List CtorStep
  /-- Whether `mClipToBoundsKernel` points to a kernel object. -/
  clipKernel : Bool

/-- Recording one step. -/
def Building.step (b : Building) (e : CtorStep) : Building :=
  { b with steps := b.steps ++ [e] }

/-- The wrapper `OCL_CHECK(expr)` after `expr` has run and left `status` in `*CL_ERROR`. -/
def OCL_CHECK (W : ErrorWrappers) (status : Int) (b : Building) :
    Except (List CtorStep) Building :=
  if W.checkStops status then .error b.steps else .ok b

/-- Lines 94-112: the counting-sort program and its three kernels. -/
def setupCountingSort (W : ErrorWrappers) (P : Platform) (b : Building) :
    Except (List CtorStep) Building :=
  if P.readsFile .mCountingSortProgram then do
    let b ← OCL_CHECK W (P.buildStatus .mCountingSortProgram)
      (b.step (.buildProgram .mCountingSortProgram))
    let b := if P.buildStatus .mCountingSortProgram = CL_BUILD_PROGRAM_FAILURE
      then b.step (.printBuildLog .mCountingSortProgram) else b
    let b ← OCL_CHECK W (P.kernelStatus .insert_particles)
      (b.step (.createKernel .mCountingSortProgram .insert_particles))
    let b ← OCL_CHECK W (P.kernelStatus .compute_bin_start_ID)
      (b.step (.createKernel .mCountingSortProgram .compute_bin_start_ID))
    OCL_CHECK W (P.kernelStatus .reindex_particles)
      (b.step (.createKernel .mCountingSortProgram .reindex_particles))
  else .ok b

/-- Lines 114-126: the timestep program and its kernel. -/
def setupTimestep (W : ErrorWrappers) (P : Platform) (b : Building) :
    Except (List CtorStep) Building :=
  if P.readsFile .mTimestepProgram then
    let b := b.step (.buildProgram .mTimestepProgram)
    let b := if P.buildStatus .mTimestepProgram = CL_BUILD_PROGRAM_FAILURE
      then b.step (.printBuildLog .mTimestepProgram) else b
    OCL_CHECK W (P.kernelStatus .timestep)
      (b.step (.createKernel .mTimestepProgram .timestep))
  else .ok b

/-- Lines 128-140: the clip-to-bounds program and its kernel. -/
def setupClipToBounds (W : ErrorWrappers) (P : Platform) (b : Building) :
    Except (List CtorStep) Building :=
  if P.readsFile .mClipToBoundsProgram then
    let b := b.step (.buildProgram .mClipToBoundsProgram)
    let b := if P.buildStatus .mClipToBoundsProgram = CL_BUILD_PROGRAM_FAILURE
      then b.step (.printBuildLog .mClipToBoundsProgram) else b
    OCL_CHECK W (P.kernelStatus .clip_to_bounds)
      ({ b with clipKernel := true }.step (.createKernel .mClipToBoundsProgram .clip_to_bounds))
  else .ok b

/-- The scene members as the constructor assigns them in lines 47-55; the vector
`mMemObjects` starts empty, no kernel argument is bound and no buffer exists. -/
def constructedMembers (raw : Unassigned) : Scene :=
  { mNumParticles := raw.mNumParticles
    mDeltaTime := raw.mDeltaTime
    mCurrentBufferID := raw.mCurrentBufferID
    mNumSolverIterations := raw.mNumSolverIterations
    mBoundsCL := { halfDimensions := ⟨1, 1, 1, 0⟩, dimensions := ⟨2, 2, 2, 0⟩ }
    mGridCL :=
      { halfDimensions := ⟨1, 1, 1, 0⟩
        binSize := 1 / 2
        binCount3D := ⟨4, 4, 4, 0⟩
        binCount := 4 * 4 * 4 }
    mMemObjects := []
    kernelArgs := fun _ _ => none
    glBuffers := fun _ => none
    clBufferBytes := fun _ => none
    queue := [] }

/-- The constructor `ParticleSimulationScene(context, device, queue)`. -/
def constructor (W : ErrorWrappers) (P : Platform) (raw : Unassigned) : Construction :=
  let scene : Scene := constructedMembers raw
  let start : Building := ⟨[], false⟩
  match setupCountingSort W P start >>= setupTimestep W P >>= setupClipToBounds W P with
  | .error steps => ⟨steps, .stopped⟩
  | .ok b =>
    if b.clipKernel then
      let b := b.step (.setArg .clip_to_bounds 2)
      if W.callStops P.setArgStatus then ⟨b.steps, .stopped⟩
      else if P.setArgStatus = CL_SUCCESS then
        ⟨b.steps, .completed (scene.setArg .clip_to_bounds 2 (.bounds scene.mBoundsCL))⟩
      else ⟨b.steps, .completed scene⟩
    else ⟨b.steps, .nullKernel⟩

/-- A platform on which every file is read and every call succeeds. -/
def Platform.allSucceed : Platform :=
  { readsFile := fun _ => true
    buildStatus := fun _ => CL_SUCCESS
    kernelStatus := fun _ => CL_SUCCESS
    setArgStatus := CL_SUCCESS }

/-- Wrappers that report and carry on. -/
def ErrorWrappers.reportOnly : ErrorWrappers :=
  { checkStops := fun _ => false, callStops := fun _ => false }

/-- The scene a completed constructor leaves behind when the final `setArg` succeeded. -/
def constructedScene (raw : Unassigned) : Scene :=
  (constructedMembers raw).setArg .clip_to_bounds 2 (.bounds (constructedMembers raw).mBoundsCL)

/-- The OpenCL status `CL_INVALID_PROGRAM_EXECUTABLE`. -/
def CL_INVALID_PROGRAM_EXECUTABLE : Int := -45

/-- A platform on which every file is read and only the timestep program fails to build,
so that creating its kernel is refused as well. -/
def Platform.timestepBuildFails : Platform :=
  { readsFile := fun _ => true
    buildStatus := fun p => if p = .mTimestepProgram then CL_BUILD_PROGRAM_FAILURE else CL_SUCCESS
    kernelStatus := fun k => if k = .timestep then CL_INVALID_PROGRAM_EXECUTABLE else CL_SUCCESS
    setArgStatus := CL_SUCCESS }

/-! ## Sequences of calls -/

/-- The calls a client can make on a constructed scene. -/
inductive SceneOp where
  | reset (velocity : Nat → Float4)
  | loadFluidSetup (file : Option SetupText) (fuel : Nat)
  | update

/-- Effect of one call. -/
def SceneOp.apply : SceneOp → Scene → Except LoadFault Scene
  | .reset velocity, s => .ok (pbf.reset s velocity)
  | .loadFluidSetup file fuel, s => pbf.loadFluidSetup s file fuel
  | .update, s => .ok (pbf.update s)

/-- Effect of a sequence of calls, first call first. -/
def runOps : List SceneOp → Scene → Except LoadFault Scene
  | [], s => .ok s
  | op :: ops, s =>
    match op.apply s with
    | .ok s => runOps ops s
    | .error e => .error e

/-- The scene after `n` consecutive calls of `update`. -/
def updates : Nat → Scene → Scene
  | 0, s => s
  | n + 1, s => update (updates n s)

/-- The argument lists captured by the launches of kernel `k` among `cmds`. -/
def launchesOf (k : Kernel) (cmds : List Command) : List (List (Option KernelArg)) :=
  cmds.filterMap fun c =>
    match c with
    | .enqueueNDRangeKernel k2 args _ => if k2 = k then some args else none
    | _ => none

/-- Whether the command belongs to the buffer hand-off: acquire, release, or the wait on
the event of the release. -/
def Command.isHandOff : Command → Bool
  | .enqueueAcquireGLObjects _ => true
  | .enqueueReleaseGLObjects _ => true
  | .eventWait => true
  | _ => false

/-! ## The grid -/

/-- The invariant of a grid within its bounds: the total bin count is the product of the
per-axis counts and the half-dimensions agree with those of the domain. -/
def gridInvariant (s : Scene) : Prop :=
  s.mGridCL.binCount = s.mGridCL.binCount3D.x * s.mGridCL.binCount3D.y * s.mGridCL.binCount3D.z
    ∧ s.mGridCL.halfDimensions.x = s.mBoundsCL.halfDimensions.x
    ∧ s.mGridCL.halfDimensions.y = s.mBoundsCL.halfDimensions.y
    ∧ s.mGridCL.halfDimensions.z = s.mBoundsCL.halfDimensions.z
    ∧ s.mGridCL.halfDimensions.w = s.mBoundsCL.halfDimensions.w

/-- Modelled from the spec: one axis of `binIndexOf`, the bin coordinate
`floor((position + halfDim) / binSize)` clamped to `[0, binCount - 1]`.  The kernel source
`counting_sort.cl` that computes it is not among the translated files.  The arithmetic is
exact, not rounded to single precision. -/
def binCoordinate (position halfDim binSize : ℚ) (binCount : Nat) : Nat :=
  (max 0 (min (Rat.floor ((position + halfDim) / binSize)) ((binCount : Int) - 1))).toNat

/-- Modelled from the spec: `binIndexOf(position) -> (bx, by, bz)` of section 4.1, part of
the missing kernel source `counting_sort.cl`. -/
def binIndexOf (g : Grid) (position : Float4) : Nat × Nat × Nat :=
  (binCoordinate position.x g.halfDimensions.x g.binSize g.binCount3D.x,
   binCoordinate position.y g.halfDimensions.y g.binSize g.binCount3D.y,
   binCoordinate position.z g.halfDimensions.z g.binSize g.binCount3D.z)

/-- Modelled from the spec: `linearIndex(bx, by, bz)` of section 4.1, part of the missing
kernel source `counting_sort.cl`. -/
def linearIndex (g : Grid) (b : Nat × Nat × Nat) : Nat :=
  b.1 + b.2.1 * g.binCount3D.x + b.2.2 * g.binCount3D.x * g.binCount3D.y

/-! ## Vocabulary for statements about `loadFluidSetup` -/

/-- Whether a token is a numeric literal within the range of `float`. -/
def Token.isNumeric : Token → Bool
  | .num _ => true
  | .text => false
  | .outOfRange _ => false

/-- The value of token number `j` of the body (counting from 0), or zero when the body has
no such token or the token is not numeric. -/
def tokenValue (body : List Token) (j : Nat) : ℚ :=
  match body[j]? with
  | some (.num v) => v
  | _ => 0

/-- The `i`-th position triple of the body, with zero for every value that is missing, and
zero in the fourth component. -/
def tripleAt (body : List Token) (i : Nat) : Float4 :=
  ⟨tokenValue body (3 * i), tokenValue body (3 * i + 1), tokenValue body (3 * i + 2), 0⟩

/-- The stream right after a count that fits 32 bits has been extracted: `tokens` are still
to be read. -/
def IFStream.afterCount (tokens : List Token) (trailingSpace : Bool) : IFStream :=
  ⟨tokens, trailingSpace, tokens.isEmpty && !trailingSpace, false⟩

/-- The launch of `clip_to_bounds` enqueued by a pass of the solver loop started in `s`. -/
def clipLaunch (s : Scene) : Command :=
  .enqueueNDRangeKernel .clip_to_bounds
    [some (.mem (.mPositionsCL s.mCurrentBufferID)),
     some (.mem (.mVelocitiesCL s.mCurrentBufferID)),
     s.kernelArgs .clip_to_bounds 2]
    (s.mNumParticles, 1)

/-- The launches of kernel `k` among `cmds`, as commands. -/
def launchCommands (k : Kernel) (cmds : List Command) : List Command :=
  cmds.filter fun c => decide (c.kind = .launch k)

/-- The number of work items of each launch of kernel `k` among `cmds`: the first component
of its global range. -/
def launchSizes (k : Kernel) (cmds : List Command) : List Nat :=
  cmds.filterMap fun c =>
    match c with
    | .enqueueNDRangeKernel k2 _ global => if k2 = k then some global.1 else none
    | _ => none

/-- The number of particles the device position buffer of slot 0 has room for, 16 bytes
each; `none` before the buffer exists. -/
def particleCapacity (s : Scene) : Option Nat :=
  (s.clBufferBytes (.mPositionsCL 0)).map fun bytes => bytes / (4 * sizeofUInt)

/-! ## Theorems about `update` -/

theorem clipIteration_queue (s : Scene) :
    (clipIteration s).queue = s.queue ++ [clipLaunch s] := by
  simp [clipIteration, clipLaunch, Scene.enqueueNDRangeKernel, Scene.enqueue, Scene.setArg,
    Scene.boundArgs, Kernel.arity, List.range_succ]

theorem clipLaunch_clipIteration (s : Scene) : clipLaunch (clipIteration s) = clipLaunch s := by
  simp [clipIteration, clipLaunch, Scene.enqueueNDRangeKernel, Scene.enqueue, Scene.setArg]

theorem solverLoop_queue (n : Nat) (s : Scene) :
    (solverLoop n s).queue = s.queue ++ List.replicate n (clipLaunch s) := by
  induction n generalizing s with
  | zero => simp [solverLoop]
  | succ n ih =>
    rw [solverLoop, ih, clipIteration_queue, clipLaunch_clipIteration, List.replicate_succ]
    simp

theorem clipIteration_mMemObjects (s : Scene) :
    (clipIteration s).mMemObjects = s.mMemObjects := rfl

theorem solverLoop_mMemObjects (n : Nat) (s : Scene) :
    (solverLoop n s).mMemObjects = s.mMemObjects := by
  induction n generalizing s with
  | zero => rfl
  | succ n ih => rw [solverLoop, ih, clipIteration_mMemObjects]

theorem clipIteration_mCurrentBufferID (s : Scene) :
    (clipIteration s).mCurrentBufferID = s.mCurrentBufferID := rfl

theorem solverLoop_mCurrentBufferID (n : Nat) (s : Scene) :
    (solverLoop n s).mCurrentBufferID = s.mCurrentBufferID := by
  induction n generalizing s with
  | zero => rfl
  | succ n ih => rw [solverLoop, ih, clipIteration_mCurrentBufferID]

theorem solverLoop_mNumParticles (n : Nat) (s : Scene) :
    (solverLoop n s).mNumParticles = s.mNumParticles := by
  induction n generalizing s with
  | zero => rfl
  | succ n ih => rw [solverLoop, ih]; rfl

theorem solverLoop_mNumSolverIterations (n : Nat) (s : Scene) :
    (solverLoop n s).mNumSolverIterations = s.mNumSolverIterations := by
  induction n generalizing s with
  | zero => rfl
  | succ n ih => rw [solverLoop, ih]; rfl

theorem solverLoop_mGridCL (n : Nat) (s : Scene) :
    (solverLoop n s).mGridCL = s.mGridCL := by
  induction n generalizing s with
  | zero => rfl
  | succ n ih => rw [solverLoop, ih]; rfl

theorem solverLoop_mBoundsCL (n : Nat) (s : Scene) :
    (solverLoop n s).mBoundsCL = s.mBoundsCL := by
  induction n generalizing s with
  | zero => rfl
  | succ n ih => rw [solverLoop, ih]; rfl

theorem solverLoop_kernelArgs_reindex (n : Nat) (s : Scene) (i : Nat) :
    (solverLoop n s).kernelArgs .reindex_particles i = s.kernelArgs .reindex_particles i := by
  induction n generalizing s with
  | zero => rfl
  | succ n ih =>
    rw [solverLoop, ih]
    simp [clipIteration, Scene.enqueueNDRangeKernel, Scene.enqueue, Scene.setArg]

/-- The queue after `update` is the old queue followed by the commands of the frame. -/
theorem update_queue (s : Scene) : (update s).queue = s.queue ++ frameCommands s := by
  simp [frameCommands, update, solverLoop_queue, solverLoop_mMemObjects, Scene.enqueue,
    Scene.enqueueNDRangeKernel, Scene.setArg]

theorem update_mCurrentBufferID (s : Scene) :
    (update s).mCurrentBufferID = usub32 1 s.mCurrentBufferID := by
  simp [update, solverLoop_mCurrentBufferID, Scene.enqueue, Scene.enqueueNDRangeKernel,
    Scene.setArg]

theorem update_mMemObjects (s : Scene) : (update s).mMemObjects = s.mMemObjects := by
  simp [update, solverLoop_mMemObjects, Scene.enqueue, Scene.enqueueNDRangeKernel,
    Scene.setArg]

theorem update_mNumParticles (s : Scene) : (update s).mNumParticles = s.mNumParticles := by
  simp [update, solverLoop_mNumParticles, Scene.enqueue, Scene.enqueueNDRangeKernel,
    Scene.setArg]

theorem update_mGridCL (s : Scene) : (update s).mGridCL = s.mGridCL := by
  simp [update, solverLoop_mGridCL, Scene.enqueue, Scene.enqueueNDRangeKernel, Scene.setArg]

theorem update_mBoundsCL (s : Scene) : (update s).mBoundsCL = s.mBoundsCL := by
  simp [update, solverLoop_mBoundsCL, Scene.enqueue, Scene.enqueueNDRangeKernel,
    Scene.setArg]

theorem update_kernelArgs_reindex_static (s : Scene) (i : Nat) (hi : i < 3) :
    (update s).kernelArgs .reindex_particles i = s.kernelArgs .reindex_particles i := by
  have h3 : i ≠ 3 := by omega
  have h4 : i ≠ 4 := by omega
  have h5 : i ≠ 5 := by omega
  have h6 : i ≠ 6 := by omega
  simp [update, solverLoop_kernelArgs_reindex, Scene.enqueue, Scene.enqueueNDRangeKernel,
    Scene.setArg, h3, h4, h5, h6]

/-- The single launch of `reindex_particles` in a frame and the arguments it captures. -/
theorem launchesOf_reindex_frame (s : Scene) :
    launchesOf .reindex_particles (frameCommands s)
      = [[s.kernelArgs .reindex_particles 0, s.kernelArgs .reindex_particles 1,
          s.kernelArgs .reindex_particles 2,
          some (.mem (.mPositionsCL 0)), some (.mem (.mVelocitiesCL 0)),
          some (.mem (.mPositionsCL (usub32 1 s.mCurrentBufferID))),
          some (.mem (.mVelocitiesCL (usub32 1 s.mCurrentBufferID)))]] := by
  simp [launchesOf, frameCommands, update, solverLoop_queue, solverLoop_mMemObjects,
    Scene.enqueue, Scene.enqueueNDRangeKernel, Scene.setArg, Scene.boundArgs, Kernel.arity,
    List.range_succ, clipLaunch, List.filterMap_cons, List.filterMap_append,
    List.filterMap_replicate]

theorem reset_mCurrentBufferID (s : Scene) (velocity : Nat → Float4) :
    (reset s velocity).mCurrentBufferID = 0 := rfl

theorem reset_kernelArgs_reindex (s : Scene) (velocity : Nat → Float4) :
    (reset s velocity).kernelArgs .reindex_particles 0 = some (.mem .mParticleBinIDCL)
    ∧ (reset s velocity).kernelArgs .reindex_particles 1 = some (.mem .mParticleInBinPosCL)
    ∧ (reset s velocity).kernelArgs .reindex_particles 2 = some (.mem .mBinStartIDCL) := by
  simp [reset, initializeParticleStates, Scene.setArg]

theorem updates_mCurrentBufferID (n : Nat) (s : Scene) (h : s.mCurrentBufferID = 0) :
    (updates n s).mCurrentBufferID = n % 2 := by
  induction n with
  | zero => simpa [updates] using h
  | succ n ih =>
    rw [updates, update_mCurrentBufferID, ih]
    rcases Nat.mod_two_eq_zero_or_one n with h0 | h1
    · rw [h0]; have : (n + 1) % 2 = 1 := by omega
      rw [this]; rfl
    · rw [h1]; have : (n + 1) % 2 = 0 := by omega
      rw [this]; rfl

theorem updates_kernelArgs_reindex_static (n : Nat) (s : Scene) (i : Nat) (hi : i < 3) :
    (updates n s).kernelArgs .reindex_particles i = s.kernelArgs .reindex_particles i := by
  induction n with
  | zero => rfl
  | succ n ih => rw [updates, update_kernelArgs_reindex_static _ _ hi, ih]

theorem updates_mMemObjects (n : Nat) (s : Scene) :
    (updates n s).mMemObjects = s.mMemObjects := by
  induction n with
  | zero => rfl
  | succ n ih => rw [updates, update_mMemObjects, ih]

theorem updates_mNumParticles (n : Nat) (s : Scene) :
    (updates n s).mNumParticles = s.mNumParticles := by
  induction n with
  | zero => rfl
  | succ n ih => rw [updates, update_mNumParticles, ih]

/-- The single launch of `timestep` in a frame and the arguments it captures. -/
theorem launchesOf_timestep_frame (s : Scene) :
    launchesOf .timestep (frameCommands s)
      = [[some (.mem (.mPositionsCL 0)), some (.mem (.mVelocitiesCL 0)),
          some (.scalar s.mDeltaTime)]] := by
  simp [launchesOf, frameCommands, update, solverLoop_queue, solverLoop_mMemObjects,
    Scene.enqueue, Scene.enqueueNDRangeKernel, Scene.setArg, Scene.boundArgs, Kernel.arity,
    List.range_succ, clipLaunch, List.filterMap_cons, List.filterMap_append,
    List.filterMap_replicate]

/-- The single launch of `insert_particles` in a frame and the arguments it captures. -/
theorem launchesOf_insert_frame (s : Scene) :
    launchesOf .insert_particles (frameCommands s)
      = [[some (.mem (.mPositionsCL 0)), s.kernelArgs .insert_particles 1,
          s.kernelArgs .insert_particles 2, s.kernelArgs .insert_particles 3]] := by
  simp [launchesOf, frameCommands, update, solverLoop_queue, solverLoop_mMemObjects,
    Scene.enqueue, Scene.enqueueNDRangeKernel, Scene.setArg, Scene.boundArgs, Kernel.arity,
    List.range_succ, clipLaunch, List.filterMap_cons, List.filterMap_append,
    List.filterMap_replicate]

/-- The hand-off commands of one frame. -/
theorem frameCommands_handOff (s : Scene) :
    (frameCommands s).filter Command.isHandOff
      = [.enqueueAcquireGLObjects s.mMemObjects, .enqueueReleaseGLObjects s.mMemObjects,
          .eventWait] := by
  simp [frameCommands, update, solverLoop_queue, solverLoop_mMemObjects, Scene.enqueue,
    Scene.enqueueNDRangeKernel, Scene.setArg, Command.isHandOff, clipLaunch]

theorem updates_queue_length (n : Nat) (s : Scene) :
    s.queue.length ≤ (updates n s).queue.length := by
  induction n with
  | zero => exact Nat.le_refl _
  | succ n ih =>
    rw [updates, update_queue, List.length_append]
    omega

theorem updates_queue_succ (n : Nat) (s : Scene) :
    (updates (n + 1) s).queue.drop s.queue.length
      = (updates n s).queue.drop s.queue.length ++ frameCommands (updates n s) := by
  rw [updates, update_queue, List.drop_append_of_le_length (updates_queue_length n s)]

/-- C1: one call of `update` issues its device commands in exactly this order: acquire the
shared buffers, launch `timestep`, zero-fill the per-bin counts, launch `insert_particles`,
launch `compute_bin_start_ID`, launch `reindex_particles`, launch `clip_to_bounds` once per
solver iteration, release the shared buffers; nothing precedes the acquire or follows the
release.  This holds from every scene state and for every value of
`mNumSolverIterations`. -/
theorem update_issues_commands_in_order (s : Scene) :
    ((frameCommands s).filter Command.isDeviceCommand).map Command.kind
      = [.acquire, .launch .timestep, .fill .mBinCountCL 0, .launch .insert_particles,
          .launch .compute_bin_start_ID, .launch .reindex_particles]
        ++ List.replicate s.mNumSolverIterations (.launch .clip_to_bounds)
        ++ [.release] := by
  simp [frameCommands, update, solverLoop_queue, solverLoop_mMemObjects, Scene.enqueue,
    Scene.enqueueNDRangeKernel, Scene.setArg, Command.isDeviceCommand, Command.kind, clipLaunch]

/-- C2, evaluated on the code: in every even-numbered call of `update` after `reset` (the
second, the fourth, ...) the launch of `reindex_particles` reads positions and velocities
from buffer 0 (arguments 3 and 4) and writes them to buffer 0 as well (arguments 5 and 6):
the scatter is in place. -/
theorem reindex_in_place_on_even_frames (s : Scene) (velocity : Nat → Float4) (n : Nat) :
    launchesOf .reindex_particles (frameCommands (updates (2 * n + 1) (reset s velocity)))
      = [[some (.mem .mParticleBinIDCL), some (.mem .mParticleInBinPosCL),
          some (.mem .mBinStartIDCL),
          some (.mem (.mPositionsCL 0)), some (.mem (.mVelocitiesCL 0)),
          some (.mem (.mPositionsCL 0)), some (.mem (.mVelocitiesCL 0))]] := by
  have hcur := updates_mCurrentBufferID (2 * n + 1) (reset s velocity)
    (reset_mCurrentBufferID s velocity)
  have hmod : (2 * n + 1) % 2 = 1 := by omega
  obtain ⟨h0, h1, h2⟩ := reset_kernelArgs_reindex s velocity
  rw [launchesOf_reindex_frame, hcur, hmod,
    updates_kernelArgs_reindex_static _ _ 0 (by decide),
    updates_kernelArgs_reindex_static _ _ 1 (by decide),
    updates_kernelArgs_reindex_static _ _ 2 (by decide), h0, h1, h2]
  rfl

/-- C3, evaluated on the code: take the calls number `2 * n + 1` and `2 * n + 2` of `update`
after `reset`.  The earlier one writes its reindexed output to buffer 1, yet the later one
gives buffer 0 to `timestep`, to `insert_particles` and to `reindex_particles` as the
source: the previous-frame source is not the buffer that received the sorted output. -/
theorem later_frame_source_is_not_earlier_destination (s : Scene) (velocity : Nat → Float4)
    (n : Nat) :
    (launchesOf .reindex_particles
        (frameCommands (updates (2 * n) (reset s velocity)))).map (List.drop 5)
      = [[some (.mem (.mPositionsCL 1)), some (.mem (.mVelocitiesCL 1))]]
    ∧ (launchesOf .timestep
        (frameCommands (updates (2 * n + 1) (reset s velocity)))).map (List.take 2)
      = [[some (.mem (.mPositionsCL 0)), some (.mem (.mVelocitiesCL 0))]]
    ∧ (launchesOf .insert_particles
        (frameCommands (updates (2 * n + 1) (reset s velocity)))).map (List.take 1)
      = [[some (.mem (.mPositionsCL 0))]]
    ∧ (launchesOf .reindex_particles
        (frameCommands (updates (2 * n + 1) (reset s velocity)))).map
          (fun args => (args.drop 3).take 2)
      = [[some (.mem (.mPositionsCL 0)), some (.mem (.mVelocitiesCL 0))]] := by
  have hcur := updates_mCurrentBufferID (2 * n) (reset s velocity)
    (reset_mCurrentBufferID s velocity)
  have hmod : (2 * n) % 2 = 0 := by omega
  refine ⟨?_, ?_, ?_, ?_⟩
  · rw [launchesOf_reindex_frame, hcur, hmod]
    rfl
  · rw [launchesOf_timestep_frame]
    rfl
  · rw [launchesOf_insert_frame]
    rfl
  · rw [launchesOf_reindex_frame]
    rfl

/-- C4, evaluated on the code: after every odd-numbered call of `update` following `reset`
the valid slot is `mCurrentBufferID = 1`, the slot that received the reindexed output of
that frame, yet `render` binds and draws vertex array 0, whose attributes do not include the
position buffer of slot 1. -/
theorem render_draws_slot_zero_while_slot_one_is_current (s : Scene)
    (velocity : Nat → Float4) (n : Nat) :
    (updates (2 * n + 1) (reset s velocity)).mCurrentBufferID = 1
    ∧ (launchesOf .reindex_particles
        (frameCommands (updates (2 * n) (reset s velocity)))).map (List.drop 5)
      = [[some (.mem (.mPositionsCL 1)), some (.mem (.mVelocitiesCL 1))]]
    ∧ (render (updates (2 * n + 1) (reset s velocity))).vertexArray = 0
    ∧ sharedGLBuffer (.mPositionsCL 1) = some (.mPositionsGL 1)
    ∧ GLBufferName.mPositionsGL 1 ∉
        vertexArrayBuffers (render (updates (2 * n + 1) (reset s velocity))).vertexArray := by
  have hcur := updates_mCurrentBufferID (2 * n) (reset s velocity)
    (reset_mCurrentBufferID s velocity)
  have hcur1 := updates_mCurrentBufferID (2 * n + 1) (reset s velocity)
    (reset_mCurrentBufferID s velocity)
  have hmod : (2 * n) % 2 = 0 := by omega
  have hmod1 : (2 * n + 1) % 2 = 1 := by omega
  refine ⟨by rw [hcur1, hmod1], ?_, rfl, rfl, ?_⟩
  · rw [launchesOf_reindex_frame, hcur, hmod]
    rfl
  · simp [render, vertexArrayBuffers]

/-- C5: every call of `update` enqueues exactly one acquire and exactly one release, both of
the same list `mMemObjects`, the acquire as its first command and before the release, and
ends by waiting on the event of the release; hence over any number of consecutive calls
the hand-off commands are acquire, release, wait, repeated once per call. -/
theorem update_acquires_once_releases_once_and_waits (s : Scene) :
    (frameCommands s).head? = some (.enqueueAcquireGLObjects s.mMemObjects)
    ∧ (frameCommands s).getLast? = some .eventWait
    ∧ (frameCommands s).filter Command.isHandOff
        = [.enqueueAcquireGLObjects s.mMemObjects, .enqueueReleaseGLObjects s.mMemObjects,
            .eventWait]
    ∧ ∀ n : Nat, ((updates n s).queue.drop s.queue.length).filter Command.isHandOff
        = (List.replicate n
            [Command.enqueueAcquireGLObjects s.mMemObjects,
             Command.enqueueReleaseGLObjects s.mMemObjects, Command.eventWait]).flatten := by
  refine ⟨?_, ?_, frameCommands_handOff s, ?_⟩
  · simp [frameCommands, update, Scene.enqueue, Scene.enqueueNDRangeKernel, Scene.setArg,
      solverLoop_queue]
  · rw [← List.head?_reverse]
    simp [frameCommands, update, Scene.enqueue, Scene.enqueueNDRangeKernel, Scene.setArg,
      solverLoop_queue]
  · intro n
    induction n with
    | zero => simp [updates]
    | succ n ih =>
      rw [updates_queue_succ, List.filter_append, ih, frameCommands_handOff,
        updates_mMemObjects, List.replicate_succ']
      simp

/-! ## Theorems about `loadFluidSetup` -/

theorem readFloat_of_eof (st : IFStream) (h : st.eofbit = true) :
    readFloat st = ({ st with failbit := true }, none) := by
  simp [readFloat, h]

theorem Token.eq_num_of_isNumeric (tok : Token) (h : tok.isNumeric = true) :
    ∃ v, tok = .num v := by
  cases tok with
  | num v => exact ⟨v, rfl⟩
  | text => cases h
  | outOfRange stored => cases h

theorem readComponent_of_eof (store : Float4 → ℚ → Float4) (id : Nat) (st : IFStream)
    (pos : Vec Float4) (h : st.eofbit = true) (hid : id < pos.size) :
    readComponent store id st pos = .ok ({ st with failbit := true }, pos) := by
  simp [readComponent, readFloat_of_eof st h, hid]

theorem readParticle_of_eof (id : Nat) (st : IFStream) (pos : Vec Float4)
    (h : st.eofbit = true) (hid : id < pos.size) :
    readParticle id st pos = .ok ({ st with failbit := true }, pos) := by
  simp [readParticle, readComponent, readFloat, h, hid, bind, Except.bind]

theorem forLoop_of_eof (t : Nat) : ∀ (id : Nat) (st : IFStream) (pos : Vec Float4),
    st.eofbit = true → id + t ≤ pos.size →
    ∃ st2, forLoop t id st pos = .ok (st2, pos) ∧ st2.eofbit = true := by
  induction t with
  | zero => intro id st pos h _; exact ⟨st, rfl, h⟩
  | succ t ih =>
    intro id st pos h hfit
    obtain ⟨st2, h2, h3⟩ := ih (id + 1) { st with failbit := true } pos h (by omega)
    refine ⟨st2, ?_, h3⟩
    simp [forLoop, readParticle_of_eof id st pos h (by omega), bind, Except.bind, h2]

theorem readParticle_none (id : Nat) (pos : Vec Float4) (hid : id < pos.size) :
    ∃ st2, readParticle id (IFStream.afterCount [] true) pos = .ok (st2, pos)
      ∧ st2.eofbit = true := by
  refine ⟨⟨[], true, true, true⟩, ?_, rfl⟩
  simp [readParticle, readComponent, readFloat, IFStream.afterCount, hid, bind, Except.bind]

theorem readParticle_three (id : Nat) (a b c : ℚ) (rest : List Token) (ts : Bool)
    (pos : Vec Float4) (h : id < pos.size) :
    ∃ pos2, readParticle id (IFStream.afterCount (.num a :: .num b :: .num c :: rest) ts) pos
        = .ok (IFStream.afterCount rest ts, pos2)
      ∧ pos2.size = pos.size
      ∧ pos2.get id = ⟨a, b, c, (pos.get id).w⟩
      ∧ ∀ i, i ≠ id → pos2.get i = pos.get i := by
  simp [readParticle, readComponent, readFloat, IFStream.afterCount, bind, Except.bind, h,
    Vec.set, Vec.get]
  intro i hi
  simp [hi]

theorem readParticle_two (id : Nat) (a b : ℚ) (ts : Bool)
    (pos : Vec Float4) (h : id < pos.size) :
    ∃ st2 pos2, readParticle id (IFStream.afterCount [.num a, .num b] ts) pos
        = .ok (st2, pos2)
      ∧ st2.eofbit = true
      ∧ pos2.size = pos.size
      ∧ pos2.get id = ⟨a, b, (pos.get id).z, (pos.get id).w⟩
      ∧ ∀ i, i ≠ id → pos2.get i = pos.get i := by
  cases ts <;>
    simp [readParticle, readComponent, readFloat, IFStream.afterCount, bind, Except.bind, h,
      Vec.set, Vec.get] <;>
    exact ⟨_, _, ⟨rfl, rfl⟩, rfl, rfl, by simp, fun i hi => by simp [hi]⟩

theorem readParticle_one (id : Nat) (a : ℚ) (ts : Bool)
    (pos : Vec Float4) (h : id < pos.size) :
    ∃ st2 pos2, readParticle id (IFStream.afterCount [.num a] ts) pos
        = .ok (st2, pos2)
      ∧ st2.eofbit = true
      ∧ pos2.size = pos.size
      ∧ pos2.get id = ⟨a, (pos.get id).y, (pos.get id).z, (pos.get id).w⟩
      ∧ ∀ i, i ≠ id → pos2.get i = pos.get i := by
  cases ts <;>
    simp [readParticle, readComponent, readFloat, IFStream.afterCount, bind, Except.bind, h,
      Vec.set, Vec.get] <;>
    exact ⟨_, _, ⟨rfl, rfl⟩, rfl, rfl, by simp, fun i hi => by simp [hi]⟩

theorem tripleAt_short (toks : List Token) (i : Nat) (h : toks.length ≤ 3 * i) :
    tripleAt toks i = Float4.zero := by
  have h0 : toks[3 * i]? = none := List.getElem?_eq_none (by omega)
  have h1 : toks[3 * i + 1]? = none := List.getElem?_eq_none (by omega)
  have h2 : toks[3 * i + 2]? = none := List.getElem?_eq_none (by omega)
  simp [tripleAt, tokenValue, Float4.zero, h0, h1, h2]

theorem tripleAt_cons3 (a b c : Token) (rest : List Token) (i : Nat) :
    tripleAt (a :: b :: c :: rest) (i + 1) = tripleAt rest i := by
  have e0 : 3 * (i + 1) = 3 * i + 3 := by ring
  have e1 : 3 * (i + 1) + 1 = 3 * i + 1 + 3 := by ring
  have e2 : 3 * (i + 1) + 2 = 3 * i + 2 + 3 := by ring
  simp only [tripleAt, tokenValue, e0, e1, e2, List.getElem?_cons_succ]

theorem forLoop_step (t id : Nat) (st st2 : IFStream) (pos pos2 : Vec Float4)
    (h : readParticle id st pos = .ok (st2, pos2)) :
    forLoop (t + 1) id st pos = forLoop t (id + 1) st2 pos2 := by
  simp [forLoop, h, bind, Except.bind]

/-- One pass of the `for` loop over a body of in-range numeric tokens that does not hold
more than the declared number of triples, when the declared count stays within the vector:
every value is stored where it belongs, and the pass ends with `eofbit` set unless the body
is complete and followed by whitespace. -/
theorem forLoop_numeric (t : Nat) : ∀ (id : Nat) (toks : List Token) (ts : Bool)
    (pos : Vec Float4),
    (∀ tok ∈ toks, tok.isNumeric = true) → toks.length ≤ 3 * t →
    id + t ≤ pos.size → (∀ i, id ≤ i → pos.get i = Float4.zero) →
    ∃ st2 pos2, forLoop t id (IFStream.afterCount toks ts) pos = .ok (st2, pos2)
      ∧ pos2.size = pos.size
      ∧ (∀ i, i < id → pos2.get i = pos.get i)
      ∧ (∀ i, id ≤ i → pos2.get i = tripleAt toks (i - id))
      ∧ (st2.eofbit = true
          ∨ (st2 = IFStream.afterCount [] true ∧ toks.length = 3 * t ∧ ts = true)) := by
  induction t with
  | zero =>
    intro id toks ts pos _ hlen _ hzero
    have htoks : toks = [] := List.length_eq_zero.mp (by omega)
    subst htoks
    refine ⟨IFStream.afterCount [] ts, pos, rfl, rfl, fun _ _ => rfl, ?_, ?_⟩
    · intro i hi
      rw [hzero i hi, tripleAt_short _ _ (by simp)]
    · cases ts
      · exact Or.inl rfl
      · exact Or.inr ⟨rfl, rfl, rfl⟩
  | succ t ih =>
    intro id toks ts pos hnum hlen hfit hzero
    have hid : id < pos.size := by omega
    match toks, hnum, hlen with
    | [], _, _ =>
      cases ts
      · obtain ⟨st2, h2, he⟩ :=
          forLoop_of_eof (t + 1) id (IFStream.afterCount [] false) pos rfl hfit
        refine ⟨st2, pos, h2, rfl, fun _ _ => rfl, ?_, Or.inl he⟩
        intro i hi
        rw [hzero i hi, tripleAt_short _ _ (by simp)]
      · obtain ⟨st2, h2, he⟩ := readParticle_none id pos hid
        obtain ⟨st3, h3, he3⟩ := forLoop_of_eof t (id + 1) st2 pos he (by omega)
        refine ⟨st3, pos, ?_, rfl, fun _ _ => rfl, ?_, Or.inl he3⟩
        · rw [forLoop_step _ _ _ _ _ _ h2, h3]
        · intro i hi
          rw [hzero i hi, tripleAt_short _ _ (by simp)]
    | [x], hnum, _ =>
      obtain ⟨a, rfl⟩ := Token.eq_num_of_isNumeric x (hnum x (by simp))
      obtain ⟨st2, pos2, h2, he, hs, hg, ho⟩ := readParticle_one id a ts pos hid
      obtain ⟨st3, h3, he3⟩ := forLoop_of_eof t (id + 1) st2 pos2 he (by omega)
      refine ⟨st3, pos2, ?_, hs, ?_, ?_, Or.inl he3⟩
      · rw [forLoop_step _ _ _ _ _ _ h2, h3]
      · intro i hi
        exact ho i (by omega)
      · intro i hi
        rcases Nat.eq_or_lt_of_le hi with heq | hlt
        · subst heq
          rw [hg, hzero id (Nat.le_refl _)]
          simp [tripleAt, tokenValue, Float4.zero]
        · rw [ho i (by omega), hzero i hi, tripleAt_short _ _ (by simp; omega)]
    | [x, y], hnum, _ =>
      obtain ⟨a, rfl⟩ := Token.eq_num_of_isNumeric x (hnum x (by simp))
      obtain ⟨b, rfl⟩ := Token.eq_num_of_isNumeric y (hnum y (by simp))
      obtain ⟨st2, pos2, h2, he, hs, hg, ho⟩ := readParticle_two id a b ts pos hid
      obtain ⟨st3, h3, he3⟩ := forLoop_of_eof t (id + 1) st2 pos2 he (by omega)
      refine ⟨st3, pos2, ?_, hs, ?_, ?_, Or.inl he3⟩
      · rw [forLoop_step _ _ _ _ _ _ h2, h3]
      · intro i hi
        exact ho i (by omega)
      · intro i hi
        rcases Nat.eq_or_lt_of_le hi with heq | hlt
        · subst heq
          rw [hg, hzero id (Nat.le_refl _)]
          simp [tripleAt, tokenValue, Float4.zero]
        · rw [ho i (by omega), hzero i hi, tripleAt_short _ _ (by simp; omega)]
    | x :: y :: z :: rest, hnum, hlen =>
      obtain ⟨a, rfl⟩ := Token.eq_num_of_isNumeric x (hnum x (by simp))
      obtain ⟨b, rfl⟩ := Token.eq_num_of_isNumeric y (hnum y (by simp))
      obtain ⟨c, rfl⟩ := Token.eq_num_of_isNumeric z (hnum z (by simp))
      obtain ⟨pos2, h2, hs, hg, ho⟩ := readParticle_three id a b c rest ts pos hid
      have hnum2 : ∀ tok ∈ rest, tok.isNumeric = true := fun tok htok =>
        hnum tok (by simp [htok])
      have hzero2 : ∀ i, id + 1 ≤ i → pos2.get i = Float4.zero := fun i hi => by
        rw [ho i (by omega), hzero i (by omega)]
      obtain ⟨st3, pos3, h3, hs3, hlt3, hge3, he3⟩ :=
        ih (id + 1) rest ts pos2 hnum2 (by simp at hlen; omega) (by rw [hs]; omega) hzero2
      refine ⟨st3, pos3, ?_, by rw [hs3, hs], ?_, ?_, ?_⟩
      · rw [forLoop_step _ _ _ _ _ _ h2, h3]
      · intro i hi
        rw [hlt3 i (by omega), ho i (by omega)]
      · intro i hi
        rcases Nat.eq_or_lt_of_le hi with heq | hlt
        · subst heq
          rw [hlt3 id (by omega), hg, hzero id (Nat.le_refl _)]
          simp [tripleAt, tokenValue, Float4.zero]
        · rw [hge3 i (by omega)]
          have hsub : i - id = (i - (id + 1)) + 1 := by omega
          rw [hsub, tripleAt_cons3]
      · rcases he3 with h | ⟨h1, h2, h3⟩
        · exact Or.inl h
        · exact Or.inr ⟨h1, by simp [h2]; ring, h3⟩

theorem whileLoop_of_eof (n fuel : Nat) (st : IFStream) (pos : Vec Float4)
    (h : st.eofbit = true) : whileLoop n fuel st pos = .ok (st, pos) := by
  unfold whileLoop
  simp [h]

theorem whileLoop_succ (n fuel : Nat) (st st2 : IFStream) (pos pos2 : Vec Float4)
    (h : st.eofbit = false) (hfor : forLoop n 0 st pos = .ok (st2, pos2)) :
    whileLoop n (fuel + 1) st pos = whileLoop n fuel st2 pos2 := by
  conv_lhs => unfold whileLoop
  simp [h, hfor, bind, Except.bind]

/-- With a declared count of zero and `eofbit` clear, the `while` loop never ends: its body
extracts nothing, so whatever the budget, it is used up. -/
theorem whileLoop_zero_count (fuel : Nat) (st : IFStream) (pos : Vec Float4)
    (h : st.eofbit = false) : whileLoop 0 fuel st pos = .error .running := by
  induction fuel with
  | zero => unfold whileLoop; simp [h]
  | succ fuel ih => rw [whileLoop_succ 0 fuel st st pos pos h rfl, ih]

/-- The `while` loop over a body of in-range numeric tokens that holds at most the declared
number of triples, for a declared count of at most `MAX_PARTICLES`: it ends, and entry `i`
of the vector holds the `i`-th triple of the body. -/
theorem whileLoop_numeric (n : Nat) (body : List Token) (ts : Bool) (fuel : Nat)
    (hnum : ∀ tok ∈ body, tok.isNumeric = true) (hlen : body.length ≤ 3 * n)
    (hcap : n ≤ MAX_PARTICLES) (hfuel : 1 ≤ fuel)
    (hfull : body.length = 3 * n → ts = true → 2 ≤ fuel ∧ 0 < n) :
    ∃ st2 pos2, whileLoop n fuel (IFStream.afterCount body ts)
        (Vec.filled MAX_PARTICLES Float4.zero) = .ok (st2, pos2)
      ∧ pos2.size = MAX_PARTICLES ∧ ∀ i, pos2.get i = tripleAt body i := by
  obtain ⟨st2, pos2, hfor, hs, _, hge, hend⟩ :=
    forLoop_numeric n 0 body ts (Vec.filled MAX_PARTICLES Float4.zero) hnum hlen
      (by simpa [Vec.filled] using hcap) (fun _ _ => rfl)
  have hget : ∀ i, pos2.get i = tripleAt body i := fun i => by
    simpa using hge i (Nat.zero_le _)
  cases hb : (IFStream.afterCount body ts).eofbit with
  | true =>
    refine ⟨_, _, whileLoop_of_eof _ _ _ _ hb, rfl, ?_⟩
    intro i
    have hempty : body = [] := by
      cases body with
      | nil => rfl
      | cons a l => simp [IFStream.afterCount] at hb
    subst hempty
    rw [tripleAt_short _ _ (by simp)]
    rfl
  | false =>
    obtain ⟨f, rfl⟩ : ∃ f, fuel = f + 1 := ⟨fuel - 1, by omega⟩
    rw [whileLoop_succ n f _ st2 _ pos2 hb hfor]
    rcases hend with he | ⟨hst, hl, hts⟩
    · exact ⟨st2, pos2, whileLoop_of_eof _ _ _ _ he, hs, hget⟩
    · obtain ⟨h2, hn⟩ := hfull hl hts
      obtain ⟨g, rfl⟩ : ∃ g, f = g + 1 := ⟨f - 1, by omega⟩
      obtain ⟨m, rfl⟩ : ∃ m, n = m + 1 := ⟨n - 1, by omega⟩
      subst hst
      have hs2 : pos2.size = MAX_PARTICLES := hs
      obtain ⟨st3, h3, he3⟩ := readParticle_none 0 pos2 (by omega)
      obtain ⟨st4, h4, he4⟩ := forLoop_of_eof m 1 st3 pos2 he3 (by omega)
      have hpass : forLoop (m + 1) 0 (IFStream.afterCount [] true) pos2 = .ok (st4, pos2) := by
        rw [forLoop_step _ _ _ _ _ _ h3, h4]
      rw [whileLoop_succ (m + 1) g _ st4 _ pos2 rfl hpass]
      exact ⟨st4, pos2, whileLoop_of_eof _ _ _ _ he4, hs, hget⟩

/-- Loading a file whose count is at most `MAX_PARTICLES` and whose body consists of
in-range numeric tokens and holds at most the declared number of triples: the function
reaches `initializeParticleStates` with `mNumParticles` set to the count, with the triples
of the body in the position array and with zero velocities and densities. -/
theorem loadFluidSetup_numeric (s : Scene) (n : Nat) (body : List Token) (ts : Bool)
    (fuel : Nat) (hcap : n ≤ MAX_PARTICLES)
    (hnum : ∀ tok ∈ body, tok.isNumeric = true) (hlen : body.length ≤ 3 * n)
    (hfuel : 1 ≤ fuel)
    (hfull : body.length = 3 * n → ts = true → 2 ≤ fuel ∧ 0 < n) :
    ∃ positions, loadFluidSetup s (some (.counted n body ts)) fuel
        = .ok (initializeParticleStates { s with mNumParticles := n } positions
            (Vec.filled MAX_PARTICLES Float4.zero) (Vec.filled MAX_PARTICLES 0))
      ∧ positions.size = MAX_PARTICLES ∧ ∀ i, positions.get i = tripleAt body i := by
  obtain ⟨st2, pos2, hw, hs, hget⟩ := whileLoop_numeric n body ts fuel hnum hlen hcap hfuel hfull
  refine ⟨pos2, ?_, hs, hget⟩
  have hn : n < 4294967296 := by unfold MAX_PARTICLES at hcap; omega
  have hdec : decide (4294967296 ≤ n) = false := by simp; omega
  have hst : (⟨body, ts, body.isEmpty && !ts, decide (4294967296 ≤ n)⟩ : IFStream)
      = IFStream.afterCount body ts := by rw [hdec]; rfl
  simp only [loadFluidSetup, readCount, hn, if_true, hst, hw]

/-- C6, evaluated on the code: for the file that holds the count 0, no triple, and a final
newline, `loadFluidSetup` never gets past its `while` loop, whatever the step budget; it
does not set up any particle state. -/
theorem loadFluidSetup_zero_count_with_newline_hangs (s : Scene) (fuel : Nat) :
    loadFluidSetup s (some (.counted 0 [] true)) fuel = .error .running := by
  have h := whileLoop_zero_count fuel
    ⟨([] : List Token), true, ([] : List Token).isEmpty && !true, decide (4294967296 ≤ 0)⟩
    (Vec.filled MAX_PARTICLES Float4.zero) rfl
  simp only [loadFluidSetup, readCount, Nat.zero_lt_succ, if_true, h]

/-- C7 fails as stated: a file that declares 2 particles and holds a single triple followed
by a newline is loaded without any error; `initializeParticleStates` is called with
`mNumParticles = 2`, the triple in entry 0 and the zero default in entry 1. -/
theorem short_file_is_loaded_without_error :
    ∃ positions,
      loadFluidSetup (reset (constructedScene ⟨0, 0, 0, 0⟩) (fun _ => Float4.zero))
          (some (.counted 2 [.num 1, .num 2, .num 3] true)) 1
        = .ok (initializeParticleStates
            { reset (constructedScene ⟨0, 0, 0, 0⟩) (fun _ => Float4.zero) with
              mNumParticles := 2 }
            positions (Vec.filled MAX_PARTICLES Float4.zero) (Vec.filled MAX_PARTICLES 0))
      ∧ positions.get 0 = ⟨1, 2, 3, 0⟩ ∧ positions.get 1 = Float4.zero :=
  ⟨_, rfl, rfl, rfl⟩

/-- C7 as amended: for every file whose first token declares `n` particles with `n` at most
the 10000 slots of `MAX_PARTICLES`, and whose body consists of fewer than `3 * n` numeric
values, each within the range of `float`, `loadFluidSetup` raises no parse error: its read
loop ends at the end of the file and it goes on to call `initializeParticleStates` with
`mNumParticles = n` and the partially read arrays, in which every value of the file sits in
its place and every value the file lacks is zero. -/
theorem loadFluidSetup_short_file_initializes (s : Scene) (n : Nat) (body : List Token)
    (ts : Bool) (fuel : Nat) (hcap : n ≤ MAX_PARTICLES)
    (hnum : ∀ tok ∈ body, tok.isNumeric = true) (hshort : body.length < 3 * n)
    (hfuel : 1 ≤ fuel) :
    ∃ positions, loadFluidSetup s (some (.counted n body ts)) fuel
        = .ok (initializeParticleStates { s with mNumParticles := n } positions
            (Vec.filled MAX_PARTICLES Float4.zero) (Vec.filled MAX_PARTICLES 0))
      ∧ positions.size = MAX_PARTICLES ∧ ∀ i, positions.get i = tripleAt body i :=
  loadFluidSetup_numeric s n body ts fuel hcap hnum (Nat.le_of_lt hshort) hfuel
    (fun h _ => absurd h (Nat.ne_of_lt hshort))

/-- Witness for C7 as amended: the file that declares 2 particles and holds one triple. -/
theorem loadFluidSetup_short_file_initializes_witness :
    ∃ positions,
      loadFluidSetup (constructedScene ⟨0, 0, 0, 0⟩)
          (some (.counted 2 [.num 1, .num 2, .num 3] true)) 1
        = .ok (initializeParticleStates
            { constructedScene ⟨0, 0, 0, 0⟩ with mNumParticles := 2 } positions
            (Vec.filled MAX_PARTICLES Float4.zero) (Vec.filled MAX_PARTICLES 0))
      ∧ positions.size = MAX_PARTICLES
      ∧ ∀ i, positions.get i = tripleAt [.num 1, .num 2, .num 3] i :=
  loadFluidSetup_short_file_initializes (constructedScene ⟨0, 0, 0, 0⟩) 2
    [.num 1, .num 2, .num 3] true 1 (by decide)
    (by intro tok htok; simp at htok; rcases htok with h | h | h <;> subst h <;> rfl)
    (by decide) (by decide)

/-! ## Theorems about the constructor and the grid -/

/-- C8 fails as stated: when the timestep program fails to build and the wrappers only
report, the constructor prints the build log and then creates the `timestep` kernel from the
failed program, builds the next program, sets the argument of the clip kernel and returns. -/
theorem constructor_continues_after_failed_build :
    (constructor .reportOnly .timestepBuildFails ⟨0, 0, 0, 0⟩).steps
      = [.buildProgram .mCountingSortProgram,
         .createKernel .mCountingSortProgram .insert_particles,
         .createKernel .mCountingSortProgram .compute_bin_start_ID,
         .createKernel .mCountingSortProgram .reindex_particles,
         .buildProgram .mTimestepProgram,
         .printBuildLog .mTimestepProgram,
         .createKernel .mTimestepProgram .timestep,
         .buildProgram .mClipToBoundsProgram,
         .createKernel .mClipToBoundsProgram .clip_to_bounds,
         .setArg .clip_to_bounds 2]
    ∧ ∃ s, (constructor .reportOnly .timestepBuildFails ⟨0, 0, 0, 0⟩).outcome = .completed s :=
  ⟨by decide, _, rfl⟩

/-- C8 as amended: for each of the three compute programs, when every source file is read,
the build of the program reports `CL_BUILD_PROGRAM_FAILURE` and the error wrappers only
report, the constructor prints the build log of the program and does not abort: right after
the log it creates the kernels of the failed program, later it sets the argument of the
clip kernel, and it returns. -/
theorem constructor_logs_failed_build_and_continues (W : ErrorWrappers) (P : Platform)
    (raw : Unassigned) (p : Program)
    (hcheck : ∀ e, W.checkStops e = false) (hcall : ∀ e, W.callStops e = false)
    (hread : ∀ q, P.readsFile q = true) (hfail : P.buildStatus p = CL_BUILD_PROGRAM_FAILURE) :
    (CtorStep.printBuildLog p :: p.kernels.map (CtorStep.createKernel p))
        <:+: (constructor W P raw).steps
    ∧ CtorStep.setArg .clip_to_bounds 2 ∈ (constructor W P raw).steps
    ∧ ∃ s, (constructor W P raw).outcome = .completed s := by
  cases p <;>
    by_cases h1 : P.buildStatus .mCountingSortProgram = CL_BUILD_PROGRAM_FAILURE <;>
    by_cases h2 : P.buildStatus .mTimestepProgram = CL_BUILD_PROGRAM_FAILURE <;>
    by_cases h3 : P.buildStatus .mClipToBoundsProgram = CL_BUILD_PROGRAM_FAILURE <;>
    by_cases h4 : P.setArgStatus = CL_SUCCESS <;>
    first
    | exact absurd hfail h1
    | exact absurd hfail h2
    | exact absurd hfail h3
    | (simp only [constructor, setupCountingSort, setupTimestep, setupClipToBounds, OCL_CHECK,
        Building.step, hcheck, hcall, hread, h1, h2, h3, h4, bind, Except.bind, if_true,
        if_false, Program.kernels, List.map, List.nil_append, List.cons_append,
        Bool.false_eq_true]
       exact ⟨by decide, by decide, _, rfl⟩)

/-- Witness for C8 as amended: the platform on which only the timestep program fails. -/
theorem constructor_logs_failed_build_and_continues_witness :
    (CtorStep.printBuildLog .mTimestepProgram
        :: Program.mTimestepProgram.kernels.map (CtorStep.createKernel .mTimestepProgram))
        <:+: (constructor .reportOnly .timestepBuildFails ⟨0, 0, 0, 0⟩).steps
    ∧ CtorStep.setArg .clip_to_bounds 2
        ∈ (constructor .reportOnly .timestepBuildFails ⟨0, 0, 0, 0⟩).steps
    ∧ ∃ s, (constructor .reportOnly .timestepBuildFails ⟨0, 0, 0, 0⟩).outcome = .completed s :=
  constructor_logs_failed_build_and_continues .reportOnly .timestepBuildFails ⟨0, 0, 0, 0⟩
    .mTimestepProgram (fun _ => rfl) (fun _ => rfl) (fun _ => rfl) rfl

theorem constructor_completed (W : ErrorWrappers) (P : Platform) (raw : Unassigned)
    (s0 : Scene) (h : (constructor W P raw).outcome = .completed s0) :
    s0 = constructedScene raw ∨ s0 = constructedMembers raw := by
  unfold constructor at h
  simp only at h
  split at h
  · cases h
  · split at h
    · split at h
      · cases h
      · split at h
        · left; cases h; rfl
        · right; cases h; rfl
    · cases h

theorem initializeParticleStates_mGridCL (s : Scene) (positions velocities : Vec Float4)
    (densities : Vec ℚ) :
    (initializeParticleStates s positions velocities densities).mGridCL = s.mGridCL := by
  simp only [initializeParticleStates, Scene.setArg]

theorem initializeParticleStates_mBoundsCL (s : Scene) (positions velocities : Vec Float4)
    (densities : Vec ℚ) :
    (initializeParticleStates s positions velocities densities).mBoundsCL = s.mBoundsCL := by
  simp only [initializeParticleStates, Scene.setArg]

theorem loadFluidSetup_keeps_grid (s s2 : Scene) (file : Option SetupText) (fuel : Nat)
    (h : loadFluidSetup s file fuel = .ok s2) :
    s2.mGridCL = s.mGridCL ∧ s2.mBoundsCL = s.mBoundsCL := by
  unfold loadFluidSetup at h
  simp only at h
  split at h
  · cases h
    exact ⟨initializeParticleStates_mGridCL _ _ _ _, initializeParticleStates_mBoundsCL _ _ _ _⟩
  · split at h
    · cases h
      exact ⟨initializeParticleStates_mGridCL _ _ _ _, initializeParticleStates_mBoundsCL _ _ _ _⟩
    · cases h

theorem apply_keeps_grid (op : SceneOp) (s s2 : Scene) (h : op.apply s = .ok s2) :
    s2.mGridCL = s.mGridCL ∧ s2.mBoundsCL = s.mBoundsCL := by
  cases op with
  | reset velocity =>
    cases h
    exact ⟨initializeParticleStates_mGridCL _ _ _ _, initializeParticleStates_mBoundsCL _ _ _ _⟩
  | loadFluidSetup file fuel => exact loadFluidSetup_keeps_grid s s2 file fuel h
  | update => cases h; exact ⟨update_mGridCL s, update_mBoundsCL s⟩

theorem runOps_keeps_grid (ops : List SceneOp) : ∀ (s s2 : Scene), runOps ops s = .ok s2 →
    s2.mGridCL = s.mGridCL ∧ s2.mBoundsCL = s.mBoundsCL := by
  induction ops with
  | nil => intro s s2 h; cases h; exact ⟨rfl, rfl⟩
  | cons op ops ih =>
    intro s s2 h
    unfold runOps at h
    split at h
    · rename_i s1 h1
      obtain ⟨g1, b1⟩ := apply_keeps_grid op s s1 h1
      obtain ⟨g2, b2⟩ := ih s1 s2 h
      exact ⟨g2.trans g1, b2.trans b1⟩
    · cases h

/-- C9: the grid and bounds of every scene the constructor completes satisfy the grid
invariant (the total bin count is the product of the three per-axis counts, and the
half-dimensions of the grid equal those of the bounds in every component), and no later
sequence of `reset`, `loadFluidSetup` and `update` calls changes the grid or the bounds. -/
theorem grid_invariant_established_and_kept (W : ErrorWrappers) (P : Platform)
    (raw : Unassigned) (s0 : Scene) (h : (constructor W P raw).outcome = .completed s0) :
    gridInvariant s0
    ∧ ∀ (ops : List SceneOp) (s : Scene), runOps ops s0 = .ok s →
        s.mGridCL = s0.mGridCL ∧ s.mBoundsCL = s0.mBoundsCL ∧ gridInvariant s := by
  have hinv : gridInvariant s0 := by
    rcases constructor_completed W P raw s0 h with h0 | h0 <;> subst h0 <;>
      exact ⟨rfl, rfl, rfl, rfl, rfl⟩
  refine ⟨hinv, fun ops s hs => ?_⟩
  obtain ⟨hg, hb⟩ := runOps_keeps_grid ops s0 s hs
  refine ⟨hg, hb, ?_⟩
  unfold gridInvariant
  rw [hg, hb]
  exact hinv

/-- Witness for C9: the constructor on a platform where every call succeeds, followed by
`reset`, a load of a one-particle file and a call of `update`. -/
theorem grid_invariant_established_and_kept_witness :
    gridInvariant (constructedScene ⟨0, 0, 0, 0⟩)
    ∧ ∃ s, runOps [.reset (fun _ => Float4.zero),
          .loadFluidSetup (some (.counted 1 [.num 1, .num 2, .num 3] true)) 2, .update]
          (constructedScene ⟨0, 0, 0, 0⟩) = .ok s
        ∧ s.mGridCL = (constructedScene ⟨0, 0, 0, 0⟩).mGridCL
        ∧ s.mBoundsCL = (constructedScene ⟨0, 0, 0, 0⟩).mBoundsCL ∧ gridInvariant s := by
  have h := grid_invariant_established_and_kept .reportOnly .allSucceed ⟨0, 0, 0, 0⟩
    (constructedScene ⟨0, 0, 0, 0⟩) rfl
  refine ⟨h.1, _, rfl, ?_⟩
  exact h.2 [.reset (fun _ => Float4.zero),
    .loadFluidSetup (some (.counted 1 [.num 1, .num 2, .num 3] true)) 2, .update] _ rfl

theorem binCoordinate_eq (position halfDim binSize : ℚ) (binCount : Nat) (b : Nat)
    (hb : b < binCount) (h1 : (b : ℚ) ≤ (position + halfDim) / binSize)
    (h2 : (position + halfDim) / binSize < (b : ℚ) + 1) :
    binCoordinate position halfDim binSize binCount = b := by
  have hf : Rat.floor ((position + halfDim) / binSize) = (b : Int) := by
    have : Rat.floor ((position + halfDim) / binSize) = ⌊(position + halfDim) / binSize⌋ := rfl
    rw [this, Int.floor_eq_iff]
    exact ⟨by exact_mod_cast h1, by exact_mod_cast h2⟩
  unfold binCoordinate
  rw [hf]
  omega

/-- C10: the grid the constructor configures has half-dimensions (1,1,1), bin size 0.5, bin
counts (4,4,4) and 64 bins; under the binning rule of the specification a particle at
(-0.9,-0.9,-0.9) falls in bin (0,0,0) with linear index 0 and a particle at (0.9,0.9,0.9)
falls in bin (3,3,3) with linear index 63. -/
theorem constructed_grid_bins_the_two_example_particles (raw : Unassigned) :
    (constructedMembers raw).mGridCL.halfDimensions = ⟨1, 1, 1, 0⟩
    ∧ (constructedMembers raw).mGridCL.binSize = 1 / 2
    ∧ (constructedMembers raw).mGridCL.binCount3D = ⟨4, 4, 4, 0⟩
    ∧ (constructedMembers raw).mGridCL.binCount = 64
    ∧ binIndexOf (constructedMembers raw).mGridCL ⟨-9 / 10, -9 / 10, -9 / 10, 0⟩ = (0, 0, 0)
    ∧ linearIndex (constructedMembers raw).mGridCL
        (binIndexOf (constructedMembers raw).mGridCL ⟨-9 / 10, -9 / 10, -9 / 10, 0⟩) = 0
    ∧ binIndexOf (constructedMembers raw).mGridCL ⟨9 / 10, 9 / 10, 9 / 10, 0⟩ = (3, 3, 3)
    ∧ linearIndex (constructedMembers raw).mGridCL
        (binIndexOf (constructedMembers raw).mGridCL ⟨9 / 10, 9 / 10, 9 / 10, 0⟩) = 63 := by
  have hlow : binCoordinate (-9 / 10) 1 (1 / 2) 4 = 0 :=
    binCoordinate_eq _ _ _ _ 0 (by norm_num) (by norm_num) (by norm_num)
  have hhigh : binCoordinate (9 / 10) 1 (1 / 2) 4 = 3 :=
    binCoordinate_eq _ _ _ _ 3 (by norm_num) (by norm_num) (by norm_num)
  have h0 : binIndexOf (constructedMembers raw).mGridCL ⟨-9 / 10, -9 / 10, -9 / 10, 0⟩
      = (0, 0, 0) := by
    simp only [binIndexOf, constructedMembers, hlow]
  have h3 : binIndexOf (constructedMembers raw).mGridCL ⟨9 / 10, 9 / 10, 9 / 10, 0⟩
      = (3, 3, 3) := by
    simp only [binIndexOf, constructedMembers, hhigh]
  refine ⟨rfl, rfl, rfl, rfl, h0, ?_, h3, ?_⟩
  · rw [h0]; rfl
  · rw [h3]; rfl

/-! ## The solver loop and the limits of `loadFluidSetup` -/

/-- C11: for every value `k` of `mNumSolverIterations`, one call of `update` launches
`clip_to_bounds` exactly `k` times (so not at all when `k = 0`), every launch over
`mNumParticles` work items and with arguments 0 and 1 bound to the position and velocity
buffers of index `mCurrentBufferID`, which are the buffers the launch of `reindex_particles`
of the same frame writes to. -/
theorem update_launches_clip_once_per_iteration (s : Scene) :
    launchCommands .clip_to_bounds (frameCommands s)
      = List.replicate s.mNumSolverIterations
          (.enqueueNDRangeKernel .clip_to_bounds
            [some (.mem (.mPositionsCL (update s).mCurrentBufferID)),
             some (.mem (.mVelocitiesCL (update s).mCurrentBufferID)),
             s.kernelArgs .clip_to_bounds 2]
            (s.mNumParticles, 1))
    ∧ (launchCommands .clip_to_bounds (frameCommands s)).length = s.mNumSolverIterations
    ∧ (launchesOf .reindex_particles (frameCommands s)).map (List.drop 5)
      = [[some (.mem (.mPositionsCL (update s).mCurrentBufferID)),
          some (.mem (.mVelocitiesCL (update s).mCurrentBufferID))]] := by
  have h : launchCommands .clip_to_bounds (frameCommands s)
      = List.replicate s.mNumSolverIterations
          (.enqueueNDRangeKernel .clip_to_bounds
            [some (.mem (.mPositionsCL (update s).mCurrentBufferID)),
             some (.mem (.mVelocitiesCL (update s).mCurrentBufferID)),
             s.kernelArgs .clip_to_bounds 2]
            (s.mNumParticles, 1)) := by
    rw [update_mCurrentBufferID]
    simp [launchCommands, frameCommands, update, solverLoop_queue, solverLoop_mMemObjects,
      Scene.enqueue, Scene.enqueueNDRangeKernel, Scene.setArg, clipLaunch, Command.kind,
      List.filter_cons, List.filter_append, List.filter_replicate]
  refine ⟨h, by rw [h, List.length_replicate], ?_⟩
  rw [launchesOf_reindex_frame, update_mCurrentBufferID]
  rfl

theorem readFloat_of_fail (st : IFStream) (h : st.failbit = true) :
    readFloat st = (st, none) := by
  cases st
  simp_all [readFloat]

theorem readParticle_of_fail (id : Nat) (st : IFStream) (pos : Vec Float4)
    (h : st.failbit = true) (hid : id < pos.size) :
    readParticle id st pos = .ok (st, pos) := by
  simp [readParticle, readComponent, readFloat_of_fail st h, hid, bind, Except.bind]

theorem forLoop_of_fail (t : Nat) : ∀ (id : Nat) (st : IFStream) (pos : Vec Float4),
    st.failbit = true → id + t ≤ pos.size → forLoop t id st pos = .ok (st, pos) := by
  induction t with
  | zero => intro id st pos _ _; rfl
  | succ t ih =>
    intro id st pos h hfit
    rw [forLoop_step t id st st pos pos (readParticle_of_fail id st pos h (by omega)),
      ih _ _ _ h (by omega)]

/-- Once `failbit` is set while `eofbit` is clear, the `while` loop never ends when the
declared count stays within the vector: no later extraction touches the stream, so `eofbit`
stays clear. -/
theorem whileLoop_of_fail (n fuel : Nat) (st : IFStream) (pos : Vec Float4)
    (he : st.eofbit = false) (hf : st.failbit = true) (hn : n ≤ pos.size) :
    whileLoop n fuel st pos = .error .running := by
  induction fuel with
  | zero => unfold whileLoop; simp [he]
  | succ fuel ih =>
    rw [whileLoop_succ n fuel st st pos pos he (forLoop_of_fail n 0 st pos hf (by omega)), ih]

theorem whileLoop_error (n fuel : Nat) (st : IFStream) (pos : Vec Float4) (e : LoadFault)
    (h : st.eofbit = false) (hfor : forLoop n 0 st pos = .error e) :
    whileLoop n (fuel + 1) st pos = .error e := by
  conv_lhs => unfold whileLoop
  simp [h, hfor, bind, Except.bind]

theorem forLoop_error (t id : Nat) (st : IFStream) (pos : Vec Float4) (e : LoadFault)
    (h : readParticle id st pos = .error e) : forLoop (t + 1) id st pos = .error e := by
  simp [forLoop, h, bind, Except.bind]

theorem readParticle_overflow (id : Nat) (a : ℚ) (rest : List Token) (ts : Bool)
    (pos : Vec Float4) (h : ¬ id < pos.size) :
    readParticle id (IFStream.afterCount (.num a :: rest) ts) pos
      = .error (.outOfBounds id) := by
  simp [readParticle, readComponent, readFloat, IFStream.afterCount, bind, Except.bind, h]

/-- One pass of the `for` loop over numeric tokens when the declared count and the body
both reach past the end of the vector: the pass stores to the first index that is not below
the size of the vector. -/
theorem forLoop_overflow (t : Nat) : ∀ (id : Nat) (toks : List Token) (ts : Bool)
    (pos : Vec Float4),
    (∀ tok ∈ toks, tok.isNumeric = true) → id ≤ pos.size →
    3 * (pos.size - id) < toks.length → pos.size - id < t →
    forLoop t id (IFStream.afterCount toks ts) pos = .error (.outOfBounds pos.size) := by
  induction t with
  | zero => intro id toks ts pos _ _ _ ht; omega
  | succ t ih =>
    intro id toks ts pos hnum hid hlen ht
    by_cases hlt : id < pos.size
    · match toks, hnum, hlen with
      | [], _, hlen => simp at hlen
      | [_], _, hlen => simp at hlen; omega
      | [_, _], _, hlen => simp at hlen; omega
      | x :: y :: z :: rest, hnum, hlen =>
        obtain ⟨a, rfl⟩ := Token.eq_num_of_isNumeric x (hnum x (by simp))
        obtain ⟨b, rfl⟩ := Token.eq_num_of_isNumeric y (hnum y (by simp))
        obtain ⟨c, rfl⟩ := Token.eq_num_of_isNumeric z (hnum z (by simp))
        obtain ⟨pos2, h2, hs, _, _⟩ := readParticle_three id a b c rest ts pos hlt
        have hnum2 : ∀ tok ∈ rest, tok.isNumeric = true := fun tok htok =>
          hnum tok (by simp [htok])
        rw [forLoop_step _ _ _ _ _ _ h2, ← hs]
        exact ih (id + 1) rest ts pos2 hnum2 (by omega) (by simp at hlen; omega) (by omega)
    · have hid2 : id = pos.size := by omega
      match toks, hnum, hlen with
      | [], _, hlen => simp at hlen
      | x :: rest, hnum, _ =>
        obtain ⟨a, rfl⟩ := Token.eq_num_of_isNumeric x (hnum x (by simp))
        rw [forLoop_error _ _ _ _ _ (readParticle_overflow id a rest ts pos hlt), hid2]

theorem initializeParticleStates_mNumParticles (s : Scene) (positions velocities : Vec Float4)
    (densities : Vec ℚ) :
    (initializeParticleStates s positions velocities densities).mNumParticles
      = s.mNumParticles := by
  simp only [initializeParticleStates, Scene.setArg]

theorem initializeParticleStates_particleCapacity (s : Scene)
    (positions velocities : Vec Float4) (densities : Vec ℚ) :
    particleCapacity (initializeParticleStates s positions velocities densities)
      = some positions.size := by
  simp [particleCapacity, initializeParticleStates, Scene.setArg, sizeofUInt]

/-- The work-item counts of the three per-particle launches that precede the solver loop
in a frame. -/
theorem launchSizes_frame (s : Scene) :
    launchSizes .timestep (frameCommands s) = [s.mNumParticles]
    ∧ launchSizes .insert_particles (frameCommands s) = [s.mNumParticles]
    ∧ launchSizes .reindex_particles (frameCommands s) = [s.mNumParticles] := by
  refine ⟨?_, ?_, ?_⟩ <;>
    simp [launchSizes, frameCommands, update, solverLoop_queue, solverLoop_mMemObjects,
      Scene.enqueue, Scene.enqueueNDRangeKernel, Scene.setArg, clipLaunch,
      List.filterMap_cons, List.filterMap_append, List.filterMap_replicate]

/-- C12, evaluated on the code: for a file whose first token is not a number, and for a
file that declares one particle and continues with a token that is not a number (followed by
a newline), the read loop of `loadFluidSetup` never ends, whatever the step budget:
`failbit` is set, `eofbit` never is, and `initializeParticleStates` is not reached. -/
theorem loadFluidSetup_text_token_hangs (s : Scene) (fuel : Nat) :
    loadFluidSetup s (some .uncounted) fuel = .error .running
    ∧ loadFluidSetup s (some (.counted 1 [.text] true)) fuel = .error .running := by
  constructor
  · have h := whileLoop_of_fail 0 fuel ⟨[.text], false, false, true⟩
      (Vec.filled MAX_PARTICLES Float4.zero) rfl rfl (Nat.zero_le _)
    simp only [loadFluidSetup, readCount, h]
  · have hw : whileLoop 1 fuel (IFStream.afterCount [.text] true)
        (Vec.filled MAX_PARTICLES Float4.zero) = .error .running := by
      cases fuel with
      | zero => rfl
      | succ f =>
        have hfor : ∃ pos2, forLoop 1 0 (IFStream.afterCount [.text] true)
            (Vec.filled MAX_PARTICLES Float4.zero) = .ok (⟨[.text], true, false, true⟩, pos2)
            ∧ pos2.size = MAX_PARTICLES :=
          ⟨_, rfl, rfl⟩
        obtain ⟨pos2, hfor, hsize⟩ := hfor
        rw [whileLoop_succ 1 f _ _ _ _ rfl hfor]
        exact whileLoop_of_fail 1 f _ pos2 rfl rfl (by rw [hsize]; decide)
    have hst : (⟨[.text], true, [Token.text].isEmpty && !true, decide (4294967296 ≤ 1)⟩
        : IFStream) = IFStream.afterCount [.text] true := rfl
    have hn : (1 : Nat) < 4294967296 := by decide
    simp only [loadFluidSetup, readCount, hn, if_true, hst, hw]

/-- Loading a file whose count fits 32 bits but exceeds `MAX_PARTICLES`, with a numeric body
of more than `3 * MAX_PARTICLES` values: the first pass of the read loop stores to
`positions[MAX_PARTICLES]`. -/
theorem loadFluidSetup_overflow (s : Scene) (n : Nat) (toks : List Token) (ts : Bool)
    (fuel : Nat) (hn : n < 4294967296) (hnum : ∀ tok ∈ toks, tok.isNumeric = true)
    (hcount : MAX_PARTICLES < n) (hlen : 3 * MAX_PARTICLES < toks.length) :
    loadFluidSetup s (some (.counted n toks ts)) (fuel + 1)
      = .error (.outOfBounds MAX_PARTICLES) := by
  have hfor := forLoop_overflow n 0 toks ts (Vec.filled MAX_PARTICLES Float4.zero) hnum
    (Nat.zero_le _) (by simpa [Vec.filled] using hlen) (by simpa [Vec.filled] using hcount)
  have he : (IFStream.afterCount toks ts).eofbit = false := by
    cases toks with
    | nil => simp at hlen
    | cons a l => simp [IFStream.afterCount]
  have hw := whileLoop_error n fuel _ _ _ he hfor
  have hdec : decide (4294967296 ≤ n) = false := by simp; omega
  have hst : (⟨toks, ts, toks.isEmpty && !ts, decide (4294967296 ≤ n)⟩ : IFStream)
      = IFStream.afterCount toks ts := by rw [hdec]; rfl
  simp only [loadFluidSetup, readCount, hn, if_true, hst, hw]
  rfl

/-- C13, evaluated on the code: a file that declares 10001 particles and holds 10001
numeric triples makes `loadFluidSetup` store to `positions[10000]`, one past the 10000 slots
it allocated; and a file that holds only the count 20000 leaves `mNumParticles = 20000`
while the buffers made by `initializeParticleStates` have room for 10000 particles, so the
next `update` launches `timestep`, `insert_particles` and `reindex_particles` over 20000
work items. -/
theorem loadFluidSetup_count_above_capacity (s : Scene) (fuel : Nat) :
    loadFluidSetup s (some (.counted 10001 (List.replicate 30003 (.num 1)) true)) (fuel + 1)
      = .error (.outOfBounds 10000)
    ∧ ∃ s2, loadFluidSetup s (some (.counted 20000 [] false)) fuel = .ok s2
        ∧ s2.mNumParticles = 20000
        ∧ particleCapacity s2 = some 10000
        ∧ launchSizes .timestep (frameCommands s2) = [20000]
        ∧ launchSizes .insert_particles (frameCommands s2) = [20000]
        ∧ launchSizes .reindex_particles (frameCommands s2) = [20000] := by
  constructor
  · have hnum : ∀ tok ∈ List.replicate 30003 (Token.num 1), tok.isNumeric = true := by
      intro tok htok
      rw [(List.mem_replicate.mp htok).2]
      rfl
    exact loadFluidSetup_overflow s 10001 (List.replicate 30003 (.num 1)) true fuel
      (by decide) hnum (by decide) (by rw [List.length_replicate]; decide)
  · have hw := whileLoop_of_eof 20000 fuel
      ⟨([] : List Token), false, ([] : List Token).isEmpty && !false,
        decide (4294967296 ≤ 20000)⟩
      (Vec.filled MAX_PARTICLES Float4.zero) rfl
    have hn : (20000 : Nat) < 4294967296 := by decide
    refine ⟨initializeParticleStates { s with mNumParticles := 20000 }
      (Vec.filled MAX_PARTICLES Float4.zero) (Vec.filled MAX_PARTICLES Float4.zero)
      (Vec.filled MAX_PARTICLES 0), ?_, ?_, ?_, ?_⟩
    · simp only [loadFluidSetup, readCount, hn, if_true, hw]
    · rw [initializeParticleStates_mNumParticles]
    · rw [initializeParticleStates_particleCapacity]
      rfl
    · have h := launchSizes_frame (initializeParticleStates { s with mNumParticles := 20000 }
        (Vec.filled MAX_PARTICLES Float4.zero) (Vec.filled MAX_PARTICLES Float4.zero)
        (Vec.filled MAX_PARTICLES 0))
      rw [initializeParticleStates_mNumParticles] at h
      exact h

/-! ## Short files that do not load: counts above the vector and out-of-range literals -/

theorem readParticle_past_end (id : Nat) (st : IFStream) (pos : Vec Float4)
    (h : st.eofbit = true) (hid : ¬ id < pos.size) :
    readParticle id st pos = .error (.indexPastEnd id) := by
  simp [readParticle, readComponent, readFloat, h, hid, bind, Except.bind]

/-- Once `eofbit` is set, a `for` loop whose count reaches past the end of the vector forms
`positions[id]` with `id` equal to the size of the vector. -/
theorem forLoop_of_eof_past_end (t : Nat) : ∀ (id : Nat) (st : IFStream) (pos : Vec Float4),
    st.eofbit = true → id ≤ pos.size → pos.size < id + t →
    forLoop t id st pos = .error (.indexPastEnd pos.size) := by
  induction t with
  | zero => intro id st pos _ h1 h2; omega
  | succ t ih =>
    intro id st pos h hle hlt
    by_cases hid : id < pos.size
    · rw [forLoop_step t id st _ pos pos (readParticle_of_eof id st pos h hid)]
      exact ih (id + 1) _ pos h (by omega) (by omega)
    · have heq : id = pos.size := by omega
      rw [forLoop_error t id st pos _ (readParticle_past_end id st pos h hid), heq]

/-- A file that declares more particles than `MAX_PARTICLES` and holds no value at all
(only a newline after the count): the read loop runs on after the end of the file and
forms `positions[MAX_PARTICLES]`, past the end of the vector. -/
theorem loadFluidSetup_short_file_above_capacity (s : Scene) (n fuel : Nat)
    (hn : n < 4294967296) (hcount : MAX_PARTICLES < n) :
    loadFluidSetup s (some (.counted n [] true)) (fuel + 1)
      = .error (.indexPastEnd MAX_PARTICLES) := by
  have hsize : (Vec.filled MAX_PARTICLES Float4.zero).size = MAX_PARTICLES := rfl
  have hpos : 0 < MAX_PARTICLES := by decide
  obtain ⟨m, rfl⟩ : ∃ m, n = m + 1 := ⟨n - 1, by omega⟩
  obtain ⟨st2, h2, he2⟩ := readParticle_none 0 (Vec.filled MAX_PARTICLES Float4.zero)
    (by rw [hsize]; exact hpos)
  have hfor : forLoop (m + 1) 0 (IFStream.afterCount [] true)
      (Vec.filled MAX_PARTICLES Float4.zero) = .error (.indexPastEnd MAX_PARTICLES) := by
    rw [forLoop_step m 0 _ st2 _ _ h2]
    exact forLoop_of_eof_past_end m 1 st2 (Vec.filled MAX_PARTICLES Float4.zero) he2
      (by rw [hsize]; omega) (by rw [hsize]; omega)
  have hw := whileLoop_error (m + 1) fuel (IFStream.afterCount [] true)
    (Vec.filled MAX_PARTICLES Float4.zero) _ rfl hfor
  have hdec : decide (4294967296 ≤ m + 1) = false := by simp; omega
  have hst : (⟨([] : List Token), true, ([] : List Token).isEmpty && !true,
      decide (4294967296 ≤ m + 1)⟩ : IFStream) = IFStream.afterCount [] true := by
    rw [hdec]; rfl
  simp only [loadFluidSetup, readCount, hn, if_true, hst, hw]

theorem readParticle_outOfRange (id : Nat) (stored : ℚ) (rest : List Token) (ts : Bool)
    (pos : Vec Float4) (hid : id < pos.size) :
    ∃ pos2, readParticle id (IFStream.afterCount (.outOfRange stored :: rest) ts) pos
        = .ok (⟨rest, ts, rest.isEmpty && !ts, true⟩, pos2)
      ∧ pos2.size = pos.size := by
  simp [readParticle, readComponent, readFloat, IFStream.afterCount, bind, Except.bind, hid,
    Vec.set]

/-- A file whose count is at least 1 and at most `MAX_PARTICLES` and whose first value is a
numeric literal outside the range of `float`, such as `1e40`, with more text after it: the
extraction sets `failbit` with `eofbit` clear, so the read loop never ends. -/
theorem loadFluidSetup_out_of_range_literal_hangs (s : Scene) (n : Nat) (stored : ℚ)
    (tok : Token) (rest : List Token) (ts : Bool) (fuel : Nat)
    (hpos : 0 < n) (hcap : n ≤ MAX_PARTICLES) :
    loadFluidSetup s (some (.counted n (.outOfRange stored :: tok :: rest) ts)) fuel
      = .error .running := by
  have hsize : (Vec.filled MAX_PARTICLES Float4.zero).size = MAX_PARTICLES := rfl
  obtain ⟨m, rfl⟩ : ∃ m, n = m + 1 := ⟨n - 1, by omega⟩
  have hw : whileLoop (m + 1) fuel
      (IFStream.afterCount (.outOfRange stored :: tok :: rest) ts)
      (Vec.filled MAX_PARTICLES Float4.zero) = .error .running := by
    cases fuel with
    | zero => unfold whileLoop; simp [IFStream.afterCount]
    | succ f =>
      obtain ⟨pos2, h2, hs2⟩ := readParticle_outOfRange 0 stored (tok :: rest) ts
        (Vec.filled MAX_PARTICLES Float4.zero) (by rw [hsize]; omega)
      have hs3 : pos2.size = MAX_PARTICLES := hs2
      have hfor : forLoop (m + 1) 0
          (IFStream.afterCount (.outOfRange stored :: tok :: rest) ts)
          (Vec.filled MAX_PARTICLES Float4.zero)
          = .ok (⟨tok :: rest, ts, (tok :: rest).isEmpty && !ts, true⟩, pos2) := by
        rw [forLoop_step m 0 _ _ _ _ h2]
        exact forLoop_of_fail m 1 _ pos2 rfl (by omega)
      rw [whileLoop_succ (m + 1) f _ _ _ _ (by simp [IFStream.afterCount]) hfor]
      exact whileLoop_of_fail (m + 1) f _ pos2 (by simp) rfl (by omega)
  have hn : m + 1 < 4294967296 := by unfold MAX_PARTICLES at hcap; omega
  have hdec : decide (4294967296 ≤ m + 1) = false := by simp; omega
  have hst : (⟨.outOfRange stored :: tok :: rest, ts,
      (Token.outOfRange stored :: tok :: rest).isEmpty && !ts,
      decide (4294967296 ≤ m + 1)⟩ : IFStream)
      = IFStream.afterCount (.outOfRange stored :: tok :: rest) ts := by
    rw [hdec]; rfl
  simp only [loadFluidSetup, readCount, hn, if_true, hst, hw]

end pbf
